import Mathlib

/-!
Verification of the kratos-ai decision pipeline against its specification.

This file shallowly embeds the parts of the source relevant to the claims:
the core types (`src/core/types.py`), the safety validator
(`src/remediation/safety.py`), the remediation engine
(`src/remediation/engine.py`), the knowledge-base recommendation query and
error-message normalization (`src/core/knowledge_base.py`), and the
ensemble combination of the failure predictor (`src/ml/predictors.py`).

Conventions of the embedding:
- `datetime.utcnow()` values are modelled as integer seconds (`Int`); each
  operation that reads the clock takes the current time as an argument.
- Python `float` probabilities / percentages are modelled as `ℚ`; all the
  arithmetic the claims touch is exact in the source (sums, products,
  comparisons with decimal literals), so `ℚ` is a faithful carrier.
- Python dicts are modelled as association lists in insertion order
  (Python dicts preserve insertion order).
- Fresh UUIDs are modelled as explicitly supplied identifier arguments.
-/

namespace Kratos

/-- `RemediationOutcome` enum from `src/core/types.py`. -/
inductive RemediationOutcome where
  | success
  | partial_success
  | failed
  | rolled_back
  | skipped
  | pending_approval
  | dry_run
deriving DecidableEq, Repr

/-- `RemediationAction` enum from `src/core/types.py`, in declaration order. -/
inductive RemediationAction where
  | scale_memory_up
  | scale_memory_down
  | scale_cpu_up
  | scale_cpu_down
  | scale_replicas_up
  | scale_replicas_down
  | restart_pod
  | delete_pod
  | cordon_node
  | drain_node
  | rollback_deployment
  | pause_deployment
  | reset_network_policy
  | update_service
  | update_config_map
  | update_secret
  | update_resource_quota
  | add_node_affinity
  | remove_node_affinity
  | update_priority_class
  | custom_script
  | notify_only
  | no_action
deriving DecidableEq, Repr

/-- The `.value` string of each `RemediationAction` enum member. -/
def RemediationAction.value : RemediationAction → String
  | .scale_memory_up => "scale_memory_up"
  | .scale_memory_down => "scale_memory_down"
  | .scale_cpu_up => "scale_cpu_up"
  | .scale_cpu_down => "scale_cpu_down"
  | .scale_replicas_up => "scale_replicas_up"
  | .scale_replicas_down => "scale_replicas_down"
  | .restart_pod => "restart_pod"
  | .delete_pod => "delete_pod"
  | .cordon_node => "cordon_node"
  | .drain_node => "drain_node"
  | .rollback_deployment => "rollback_deployment"
  | .pause_deployment => "pause_deployment"
  | .reset_network_policy => "reset_network_policy"
  | .update_service => "update_service"
  | .update_config_map => "update_config_map"
  | .update_secret => "update_secret"
  | .update_resource_quota => "update_resource_quota"
  | .add_node_affinity => "add_node_affinity"
  | .remove_node_affinity => "remove_node_affinity"
  | .update_priority_class => "update_priority_class"
  | .custom_script => "custom_script"
  | .notify_only => "notify_only"
  | .no_action => "no_action"

/-- Position of an action in the enum declaration order of
`src/core/types.py` (used to talk about "action enum order"). -/
def RemediationAction.enumIdx : RemediationAction → Nat
  | .scale_memory_up => 0
  | .scale_memory_down => 1
  | .scale_cpu_up => 2
  | .scale_cpu_down => 3
  | .scale_replicas_up => 4
  | .scale_replicas_down => 5
  | .restart_pod => 6
  | .delete_pod => 7
  | .cordon_node => 8
  | .drain_node => 9
  | .rollback_deployment => 10
  | .pause_deployment => 11
  | .reset_network_policy => 12
  | .update_service => 13
  | .update_config_map => 14
  | .update_secret => 15
  | .update_resource_quota => 16
  | .add_node_affinity => 17
  | .remove_node_affinity => 18
  | .update_priority_class => 19
  | .custom_script => 20
  | .notify_only => 21
  | .no_action => 22

/-- The terminal outcome set of the specification's state machine:
SUCCESS, PARTIAL_SUCCESS, FAILED, DRY_RUN, SKIPPED, ROLLED_BACK. -/
def RemediationOutcome.isTerminal : RemediationOutcome → Bool
  | .pending_approval => false
  | _ => true

/-- `RiskLevel` enum from `src/remediation/safety.py`. -/
inductive RiskLevel where
  | none_
  | low
  | medium
  | high
  | critical
deriving DecidableEq, Repr

/-- The `.value` string of each `RiskLevel` member (the enum derives from
`str`, so Python comparisons between members compare these strings). -/
def RiskLevel.value : RiskLevel → String
  | .none_ => "none"
  | .low => "low"
  | .medium => "medium"
  | .high => "high"
  | .critical => "critical"

/-- `KubernetesResource` from `src/core/types.py` (fields the claims use). -/
structure KubernetesResource where
  kind : String
  name : String
  namespace_ : String
  labels : List (String × String)
deriving DecidableEq, Repr

/-- Remediation parameters: the `Dict[str, Any]` parameter map, restricted
to the integer-valued entries the engine and validator read
(`old_memory_bytes`, `new_memory_bytes`, `max_allowed_memory_bytes`,
`new_replicas`, `max_replicas`, ...), as an insertion-ordered
association list. -/
abbrev Params := List (String × Int)

/-- `dict.get(key, default)` on an association list. -/
def Params.get (p : Params) (key : String) (dflt : Int) : Int :=
  match (List.lookup key (p : List (String × Int))) with
  | some v => v
  | none => dflt

/-- Membership test `key in params`. -/
def Params.hasKey (p : Params) (key : String) : Bool :=
  (List.lookup key (p : List (String × Int))).isSome

/-- `Remediation` from `src/core/types.py` (fields the claims use;
timestamps are integer seconds). -/
structure Remediation where
  id : String
  action : RemediationAction
  target_resource : Option KubernetesResource
  incident_id : Option String
  parameters : Params
  outcome : RemediationOutcome
  executed_at : Option Int
  completed_at : Option Int
  error_message : Option String
  dry_run : Bool
  requires_approval : Bool
  approved_by : Option String
  rollback_remediation_id : Option String
deriving DecidableEq, Repr

/-- `Remediation.is_successful`: outcome ∈ {SUCCESS, DRY_RUN}. -/
def Remediation.is_successful (r : Remediation) : Bool :=
  r.outcome == .success || r.outcome == .dry_run

/-- `SafetyCheck` from `src/remediation/safety.py`. -/
structure SafetyCheck where
  name : String
  passed : Bool
  risk_level : RiskLevel
  message : String
  blocking : Bool
deriving DecidableEq, Repr

/-- `SafetyValidation` from `src/remediation/safety.py`. -/
structure SafetyValidation where
  safe : Bool
  overall_risk : RiskLevel
  checks : List SafetyCheck
  warnings : List String
  requires_approval : Bool
  approval_reason : Option String
deriving DecidableEq, Repr

/-- `SafetyValidation.get_summary`. -/
def SafetyValidation.get_summary (v : SafetyValidation) : String :=
  let passed := (v.checks.filter (fun c => c.passed)).length
  let total := v.checks.length
  if v.safe then
    "SAFE (" ++ toString passed ++ "/" ++ toString total ++
      " checks passed, risk: " ++ v.overall_risk.value ++ ")"
  else
    let failed := (v.checks.filter (fun c => !c.passed && c.blocking)).map
      (fun c => c.name)
    "BLOCKED by: " ++ String.intercalate ", " failed

/-- Mutable state of a `SafetyValidator` together with its configuration
(`src/remediation/safety.py`, `__init__`): rate-limit timestamps
(`action_history`) and per-target cooldown anchors (`recent_targets`). -/
structure ValidatorState where
  max_pods_affected_percent : ℚ
  max_nodes_affected_percent : ℚ
  max_actions_per_hour : Nat
  cooldown_seconds : Int
  action_history : List Int
  recent_targets : List (String × Int)
deriving DecidableEq, Repr

/-- A fresh validator with the default configuration. -/
def ValidatorState.default : ValidatorState :=
  { max_pods_affected_percent := 25
    max_nodes_affected_percent := 10
    max_actions_per_hour := 20
    cooldown_seconds := 60
    action_history := []
    recent_targets := [] }

/-- The hard-coded `high_risk_actions` set. -/
def highRiskActions : List String :=
  ["drain_node", "rollback_deployment", "delete_pod", "update_secret",
   "cordon_node"]

/-- The hard-coded `protected_namespaces` set. -/
def protectedNamespaces : List String :=
  ["kube-system", "kube-public", "kube-node-lease", "monitoring",
   "istio-system"]

/-- The hard-coded `protected_labels` map, in insertion order. -/
def protectedLabels : List (String × List String) :=
  [("app", ["database", "postgres", "mysql", "redis", "elasticsearch"]),
   ("tier", ["data", "database"]),
   ("critical", ["true", "yes"])]

/-- The `target_resource` dict the engine passes to `validate`
(always carrying `kind`, `namespace`, `name`, `labels`). -/
structure TargetDict where
  kind : String
  namespace_ : String
  name : String
  labels : List (String × String)
deriving DecidableEq, Repr

/-- The optional `cluster_state` dict (`total_pods`, `total_nodes`). -/
structure ClusterState where
  total_pods : Int
  total_nodes : Int
deriving DecidableEq, Repr

/-- The `f"{kind}/{namespace}/{name}"` resource key. -/
def TargetDict.resourceKey (t : TargetDict) : String :=
  t.kind ++ "/" ++ t.namespace_ ++ "/" ++ t.name

/-- `SafetyValidator._check_rate_limit`: prunes entries not newer than one
hour ago and fails (blocking) when the pruned count has reached
`max_actions_per_hour`.  Returns the check together with the pruned
history that the method stores back into `self.action_history`. -/
def checkRateLimit (now : Int) (vs : ValidatorState) :
    SafetyCheck × List Int :=
  let hourAgo := now - 3600
  let pruned := vs.action_history.filter (fun t => hourAgo < t)
  if vs.max_actions_per_hour ≤ pruned.length then
    ({ name := "rate_limit", passed := false, risk_level := .high
       message := "Rate limit exceeded: " ++ toString pruned.length ++ "/" ++
         toString vs.max_actions_per_hour ++ " actions in last hour"
       blocking := true }, pruned)
  else
    ({ name := "rate_limit", passed := true, risk_level := .none_
       message := "Rate limit OK: " ++ toString pruned.length ++ "/" ++
         toString vs.max_actions_per_hour
       blocking := false }, pruned)

/-- `SafetyValidator._check_cooldown`. -/
def checkCooldown (now : Int) (vs : ValidatorState) (target : TargetDict) :
    SafetyCheck :=
  let key := target.resourceKey
  match List.lookup key vs.recent_targets with
  | some lastAction =>
      let elapsed := now - lastAction
      if elapsed < vs.cooldown_seconds then
        let remaining := vs.cooldown_seconds - elapsed
        { name := "cooldown", passed := false, risk_level := .medium
          message := "Target in cooldown period, " ++ toString remaining ++
            "s remaining"
          blocking := true }
      else
        { name := "cooldown", passed := true, risk_level := .none_
          message := "No cooldown in effect", blocking := false }
  | none =>
      { name := "cooldown", passed := true, risk_level := .none_
        message := "No cooldown in effect", blocking := false }

/-- `SafetyValidator._check_protected_namespace`. -/
def checkProtectedNamespace (target : TargetDict) : SafetyCheck :=
  if protectedNamespaces.contains target.namespace_ then
    { name := "protected_namespace", passed := false, risk_level := .high
      message := "Namespace " ++ target.namespace_ ++
        " is protected - requires approval"
      blocking := false }
  else
    { name := "protected_namespace", passed := true, risk_level := .none_
      message := "Namespace is not protected", blocking := false }

/-- `labels.get(key, "").lower()`. -/
def labelValueLower (labels : List (String × String)) (key : String) :
    String :=
  match List.lookup key labels with
  | some v => v.toLower
  | none => ""

/-- `SafetyValidator._check_protected_workload`: returns the first
protected-label hit in `protected_labels` insertion order, if any. -/
def checkProtectedWorkload (target : TargetDict) : SafetyCheck :=
  let hit := protectedLabels.find? (fun kv =>
    kv.2.contains (labelValueLower target.labels kv.1))
  match hit with
  | some kv =>
      { name := "protected_workload", passed := false, risk_level := .high
        message := "Workload has protected label: " ++ kv.1 ++ "=" ++
          labelValueLower target.labels kv.1
        blocking := false }
  | none =>
      { name := "protected_workload", passed := true, risk_level := .none_
        message := "Workload is not protected", blocking := false }

/-- `SafetyValidator._check_blast_radius` (percentages as exact rationals;
`//` is Python floor division). -/
def checkBlastRadius (vs : ValidatorState) (action : String)
    (cs : ClusterState) : SafetyCheck :=
  let totalPods := cs.total_pods
  let totalNodes := cs.total_nodes
  let affectedNodes : Int :=
    if action = "drain_node" ∨ action = "cordon_node" then 1 else 0
  let affectedPods : Int :=
    if action = "drain_node" ∨ action = "cordon_node" then
      (if 0 < totalNodes then Int.fdiv totalPods totalNodes else totalPods)
    else 1
  let podPercent : ℚ :=
    if 0 < totalPods then (affectedPods : ℚ) / (totalPods : ℚ) * 100 else 0
  let nodePercent : ℚ :=
    if 0 < totalNodes then (affectedNodes : ℚ) / (totalNodes : ℚ) * 100
    else 0
  if vs.max_pods_affected_percent < podPercent then
    { name := "blast_radius", passed := false, risk_level := .critical
      message := "Blast radius too high", blocking := true }
  else if vs.max_nodes_affected_percent < nodePercent then
    { name := "blast_radius", passed := false, risk_level := .high
      message := "Would affect too many nodes", blocking := false }
  else
    { name := "blast_radius", passed := true
      risk_level := if 5 < podPercent then .low else .none_
      message := "Blast radius acceptable", blocking := false }

/-- `SafetyValidator._check_resource_limits`. -/
def checkResourceLimits (action : String) (parameters : Params) :
    SafetyCheck :=
  let memFail :=
    action = "scale_memory_up" ∧
      parameters.get "max_allowed_memory_bytes" (4 * 1024 ^ 3) <
        parameters.get "new_memory_bytes" 0
  let replicasFail :=
    action = "scale_replicas_up" ∧
      parameters.get "max_replicas" 50 < parameters.get "new_replicas" 0
  if memFail then
    { name := "resource_limits", passed := false, risk_level := .medium
      message := "Requested memory exceeds maximum", blocking := true }
  else if replicasFail then
    { name := "resource_limits", passed := false, risk_level := .medium
      message := "Requested replicas exceeds maximum", blocking := true }
  else
    { name := "resource_limits", passed := true, risk_level := .none_
      message := "Resource parameters within limits", blocking := false }

/-- `SafetyValidator.validate`.  Returns the validation together with the
updated validator state (`_check_rate_limit` prunes `action_history` in
place; nothing else is mutated).  The `requires_approval` /
`approval_reason` assignments happen sequentially exactly as in the
source, so a later triggering check overwrites the reason of an earlier
one. -/
def validate (action : String) (target : TargetDict) (parameters : Params)
    (cluster_state : Option ClusterState) (now : Int) (vs : ValidatorState) :
    SafetyValidation × ValidatorState :=
  let rateCheck := (checkRateLimit now vs).1
  let prunedHistory := (checkRateLimit now vs).2
  let cooldownCheck := checkCooldown now vs target
  let namespaceCheck := checkProtectedNamespace target
  let workloadCheck := checkProtectedWorkload target
  let highRisk := highRiskActions.contains action
  let highRiskChecks : List SafetyCheck :=
    if highRisk then
      [{ name := "high_risk_action", passed := true, risk_level := .high
         message := "Action " ++ action ++ " is classified as high-risk"
         blocking := false }]
    else []
  let blastChecks : List SafetyCheck :=
    match cluster_state with
    | some cs => [checkBlastRadius vs action cs]
    | none => []
  let resourceCheck := checkResourceLimits action parameters
  let checks : List SafetyCheck :=
    [rateCheck, cooldownCheck, namespaceCheck, workloadCheck] ++
      highRiskChecks ++ blastChecks ++ [resourceCheck]
  -- sequential requires_approval / approval_reason assignments
  let reason0 : Option String := none
  let reason1 := if namespaceCheck.passed then reason0 else
    some ("Target is in protected namespace: " ++ target.namespace_)
  let reason2 := if workloadCheck.passed then reason1 else
    some workloadCheck.message
  let reason3 := if highRisk then
    some ("High-risk action: " ++ action) else reason2
  let reason4 :=
    match cluster_state with
    | some cs =>
        if (checkBlastRadius vs action cs).risk_level = .high then
          some (checkBlastRadius vs action cs).message
        else reason3
    | none => reason3
  let requiresApproval :=
    !namespaceCheck.passed || !workloadCheck.passed || highRisk ||
      (match cluster_state with
       | some cs => (checkBlastRadius vs action cs).risk_level == .high
       | none => false)
  -- `warnings.append` gated by the Python string comparison
  -- `risk_level >= RiskLevel.MEDIUM` on the str-enum values
  let warnings : List String :=
    if resourceCheck.risk_level.value < "medium" then []
    else [resourceCheck.message]
  let blockingFailures := checks.filter (fun c => !c.passed && c.blocking)
  let isSafe := blockingFailures.length == 0
  let riskLevels := checks.map (fun c => c.risk_level)
  let overallRisk : RiskLevel :=
    if riskLevels.contains .critical then .critical
    else if riskLevels.contains .high then .high
    else if riskLevels.contains .medium then .medium
    else if riskLevels.contains .low then .low
    else .none_
  ({ safe := isSafe
     overall_risk := overallRisk
     checks := checks
     warnings := warnings
     requires_approval := requiresApproval
     approval_reason := reason4 },
   { vs with action_history := prunedHistory })

/-- `SafetyValidator.record_action`: appends the current timestamp to
`action_history` and updates the target's cooldown anchor. -/
def recordAction (target : TargetDict) (now : Int) (vs : ValidatorState) :
    ValidatorState :=
  let key := target.resourceKey
  let targets' :=
    if (List.lookup key vs.recent_targets).isSome then
      vs.recent_targets.map (fun kv => if kv.1 = key then (key, now) else kv)
    else vs.recent_targets ++ [(key, now)]
  { vs with
      action_history := vs.action_history ++ [now]
      recent_targets := targets' }

/-- `RemediationPlan` from `src/remediation/engine.py`. -/
structure RemediationPlan where
  remediation : Remediation
  safety_validation : SafetyValidation
  estimated_impact : String
  estimated_duration_seconds : Int
  can_rollback : Bool
  rollback_plan : Option String
deriving DecidableEq, Repr

/-- Behaviour of an action handler when invoked: it either returns a
boolean or raises an exception carrying a message. -/
inductive HandlerResult where
  | ok (success : Bool)
  | throws (msg : String)
deriving DecidableEq, Repr

/-- A handler registry: `action_handlers.get(action)`. -/
def Handlers := RemediationAction → Option HandlerResult

/-- The default registry from `_register_default_handlers`: the ten
registered handlers all simply return `True`. -/
def defaultHandlers : Handlers := fun a =>
  match a with
  | .scale_memory_up | .scale_memory_down | .scale_cpu_up | .scale_cpu_down
  | .scale_replicas_up | .scale_replicas_down | .restart_pod | .delete_pod
  | .rollback_deployment | .notify_only => some (.ok true)
  | _ => none

/-- Mutable state of a `RemediationEngine` (plus the remediation log of the
attached knowledge base, which `execute` appends to via
`knowledge_base.record_remediation`). -/
structure EngineState where
  dry_run : Bool
  history : List Remediation
  pending_approvals : List (String × RemediationPlan)
  validator : ValidatorState
  kb_remediations : List Remediation
deriving DecidableEq, Repr

/-- Python dict assignment `d[k] = v` on an insertion-ordered assoc list. -/
def dictInsertPlan (k : String) (v : RemediationPlan)
    (d : List (String × RemediationPlan)) : List (String × RemediationPlan) :=
  if (List.lookup k d).isSome then
    d.map (fun kv => if kv.1 = k then (k, v) else kv)
  else d ++ [(k, v)]

/-- Python truthiness of an optional string (`if approved_by:`): `None`
and the empty string are falsy. -/
def truthy : Option String → Bool
  | some s => s ≠ ""
  | none => false

/-- The `target_resource` dict that `execute` builds for `record_action`.
(`rollback` builds the same dict shape for `validate`.) -/
def KubernetesResource.toTargetDict (tr : KubernetesResource) : TargetDict :=
  { kind := tr.kind, namespace_ := tr.namespace_, name := tr.name
    labels := tr.labels }

/-- Shared tail of the non-exception paths of `execute`: set
`completed_at`, append to `history`, record in the knowledge base, and
call `record_action` when the remediation has a target resource. -/
def finishExecution (rem : Remediation) (now : Int) (st : EngineState) :
    Remediation × EngineState :=
  let rem' := { rem with completed_at := some now }
  let validator' :=
    match rem'.target_resource with
    | some tr => recordAction tr.toTargetDict now st.validator
    | none => st.validator
  (rem',
   { st with
       history := st.history ++ [rem']
       kb_remediations := st.kb_remediations ++ [rem']
       validator := validator' })

/-- `RemediationEngine.execute`.  `now` stands for `datetime.utcnow()` and
`handlers` for the `action_handlers` registry.  A handler that raises is
caught by the `except` block, which sets FAILED, captures the message,
sets `completed_at` and returns — skipping the history / knowledge-base
/ rate-limit bookkeeping of the `try` block. -/
def execute (plan : RemediationPlan) (approved_by : Option String)
    (now : Int) (handlers : Handlers) (st : EngineState) :
    Remediation × EngineState :=
  let rem := plan.remediation
  if !plan.safety_validation.safe then
    ({ rem with
         outcome := .skipped
         error_message := some plan.safety_validation.get_summary }, st)
  else if plan.safety_validation.requires_approval && !truthy approved_by then
    let rem' := { rem with outcome := .pending_approval }
    (rem',
     { st with
         pending_approvals :=
           dictInsertPlan rem'.id { plan with remediation := rem' }
             st.pending_approvals })
  else
    let rem1 :=
      if truthy approved_by then { rem with approved_by := approved_by }
      else rem
    let rem2 := { rem1 with executed_at := some now }
    if st.dry_run then
      finishExecution { rem2 with outcome := .dry_run } now st
    else
      match handlers rem2.action with
      | some (.ok success) =>
          finishExecution
            { rem2 with outcome := if success then .success else .failed }
            now st
      | some (.throws msg) =>
          ({ rem2 with
               outcome := .failed
               error_message := some msg
               completed_at := some now }, st)
      | none =>
          finishExecution { rem2 with outcome := .skipped } now st

/-- `RemediationEngine._get_rollback_action`: the six invertible pairs. -/
def getRollbackAction : RemediationAction → Option RemediationAction
  | .scale_memory_up => some .scale_memory_down
  | .scale_memory_down => some .scale_memory_up
  | .scale_cpu_up => some .scale_cpu_down
  | .scale_cpu_down => some .scale_cpu_up
  | .scale_replicas_up => some .scale_replicas_down
  | .scale_replicas_down => some .scale_replicas_up
  | _ => none

/-- `RemediationEngine._get_rollback_parameters`: copy of the parameters
with the values of `old_memory_bytes` and `new_memory_bytes` swapped
when both keys are present. -/
def getRollbackParameters (r : Remediation) : Params :=
  if r.parameters.hasKey "old_memory_bytes" &&
      r.parameters.hasKey "new_memory_bytes" then
    r.parameters.map (fun kv =>
      if kv.1 = "old_memory_bytes" then
        (kv.1, r.parameters.get "new_memory_bytes" 0)
      else if kv.1 = "new_memory_bytes" then
        (kv.1, r.parameters.get "old_memory_bytes" 0)
      else kv)
  else r.parameters

/-- `RemediationEngine.rollback`.  `newId` stands for the fresh UUID of the
rollback remediation.  On success the source mutates shared objects:
`original` (an element of `history`, and of the knowledge-base log if
recorded there) receives the forward link and `result` (also appended
to `history` and the knowledge-base log) the back link; the embedding
applies the corresponding functional updates to both lists. -/
def rollback (remediation_id : String) (newId : String) (now : Int)
    (handlers : Handlers) (st : EngineState) :
    Option Remediation × EngineState :=
  match st.history.find? (fun r => r.id = remediation_id) with
  | none => (none, st)
  | some original =>
    if !original.is_successful then (none, st)
    else
      match getRollbackAction original.action with
      | none => (none, st)
      | some rollbackAction =>
        let rollbackParams := getRollbackParameters original
        let rollbackRem : Remediation :=
          { id := newId
            action := rollbackAction
            target_resource := original.target_resource
            incident_id := none
            parameters := rollbackParams
            outcome := .pending_approval
            executed_at := none
            completed_at := none
            error_message := none
            dry_run := false
            requires_approval := false
            approved_by := none
            rollback_remediation_id := none }
        let targetD : TargetDict :=
          match original.target_resource with
          | some tr => tr.toTargetDict
          | none =>
              { kind := "Unknown", namespace_ := "default"
                name := "unknown", labels := [] }
        let validated :=
          validate rollbackAction.value targetD rollbackParams none now
            st.validator
        let plan : RemediationPlan :=
          { remediation := rollbackRem
            safety_validation := validated.1
            estimated_impact := "Reverting previous change"
            estimated_duration_seconds := 30
            can_rollback := false
            rollback_plan := none }
        let executed :=
          execute plan (some "system_rollback") now handlers
            { st with validator := validated.2 }
        let result := executed.1
        let st2 := executed.2
        if result.is_successful then
          let link := fun (r : Remediation) =>
            if r.id = original.id then
              { r with rollback_remediation_id := some result.id }
            else if r.id = result.id then
              { r with rollback_remediation_id := some original.id }
            else r
          (some { result with rollback_remediation_id := some original.id },
           { st2 with
               history := st2.history.map link
               kb_remediations := st2.kb_remediations.map link })
        else (some result, st2)

/-- `IncidentType` enum from `src/core/types.py`. -/
inductive IncidentType where
  | oom_kill
  | crash_loop
  | image_pull_fail
  | readiness_fail
  | liveness_fail
  | node_not_ready
  | node_memory_pressure
  | node_disk_pressure
  | node_pid_pressure
  | resource_exhaustion
  | eviction
  | pending_pod
  | network_issue
  | volume_issue
  | config_error
  | scaling_issue
  | deployment_fail
  | unknown
deriving DecidableEq, Repr

/-- `Pattern` from `src/core/types.py` (fields `get_recommended_actions`
reads). -/
structure Pattern where
  id : String
  incident_types : List IncidentType
  recommended_actions : List RemediationAction
  success_rate : ℚ
deriving DecidableEq, Repr

/-- Knowledge-base state read by `get_recommended_actions`: the
`_remediation_success_rate` outcome lists keyed by `(kind, action)` and
the pattern store, both in insertion order. -/
structure KBState where
  success_stats : List ((IncidentType × RemediationAction) × List Bool)
  patterns : List Pattern
deriving DecidableEq, Repr

/-- Stable insertion into a success-rate-descending list: a new entry goes
after every existing entry whose rate is ≥ its own (the order produced
by Python's stable `list.sort(key=rate, reverse=True)`). -/
def insertDesc (x : RemediationAction × ℚ) :
    List (RemediationAction × ℚ) → List (RemediationAction × ℚ)
  | [] => [x]
  | h :: t => if h.2 < x.2 then x :: h :: t else h :: insertDesc x t

/-- Stable sort by success rate descending (insertion sort; stable, so
ties keep their original relative order, as Python's `list.sort`). -/
def sortByRateDesc (l : List (RemediationAction × ℚ)) :
    List (RemediationAction × ℚ) :=
  l.foldl (fun acc x => insertDesc x acc) []

/-- The empirical part of `get_recommended_actions`: one
`(action, successes/observations)` entry per `(kind, action)` key with
at least 2 recorded outcomes, in insertion order of
`_remediation_success_rate`. -/
def empiricalRecommendations (kb : KBState)
    (incident_type : IncidentType) : List (RemediationAction × ℚ) :=
  kb.success_stats.foldl (fun acc e =>
    if e.1.1 = incident_type ∧ 2 ≤ e.2.length then
      acc ++ [(e.1.2, (e.2.count true : ℚ) / (e.2.length : ℚ))]
    else acc) []

/-- The unsorted merge of `get_recommended_actions`: the empirical
entries followed by pattern-declared actions (at the pattern's
`success_rate`) that are not already present. -/
def mergedRecommendations (kb : KBState)
    (incident_type : IncidentType) : List (RemediationAction × ℚ) :=
  kb.patterns.foldl (fun acc p =>
    if p.incident_types.contains incident_type then
      p.recommended_actions.foldl (fun acc2 a =>
        if acc2.any (fun r => r.1 == a) then acc2
        else acc2 ++ [(a, p.success_rate)]) acc
    else acc) (empiricalRecommendations kb incident_type)

/-- `KnowledgeBase.get_recommended_actions`: the merged list sorted
stably by success rate descending. -/
def getRecommendedActions (kb : KBState) (incident_type : IncidentType) :
    List (RemediationAction × ℚ) :=
  sortByRateDesc (mergedRecommendations kb incident_type)

/-! ### Error-message normalization (`KnowledgeBase._normalize_error_message`)

The five `re.sub` passes are embedded as deterministic scanners.  Each
pattern, analysed under Python's leftmost/greedy backtracking semantics,
admits at most one match at a given start position, so each matcher is a
function returning the rest of the input after the match (`none` when no
match starts here).  `\d`, `[a-z0-9]`, `[A-Z]` are modelled as their
ASCII classes. -/

/-- The `[0-9a-f]` class of the UUID pattern. -/
def isHexLower (c : Char) : Bool := c.isDigit || ('a' ≤ c && c ≤ 'f')

/-- The `[a-z0-9]` class of the pod-suffix pattern. -/
def isLowerAlnum (c : Char) : Bool := c.isDigit || ('a' ≤ c && c ≤ 'z')

/-- The `[A-Z]` class of the number pattern's lookarounds. -/
def isUpperAZ (c : Char) : Bool := 'A' ≤ c && c ≤ 'Z'

/-- Consume exactly `n` characters satisfying `p` (a `{n}` quantifier). -/
def takeClassN (p : Char → Bool) : Nat → List Char → Option (List Char)
  | 0, l => some l
  | _ + 1, [] => none
  | n + 1, c :: rest => if p c then takeClassN p n rest else none

/-- Consume one expected literal character. -/
def expectChar (ch : Char) : List Char → Option (List Char)
  | [] => none
  | c :: rest => if c = ch then some rest else none

/-- Consume one character from a set (`[T ]`). -/
def expectOneOf (cs : List Char) : List Char → Option (List Char)
  | [] => none
  | c :: rest => if cs.contains c then some rest else none

/-- Match `[0-9a-f]{8}-[0-9a-f]{4}-[0-9a-f]{4}-[0-9a-f]{4}-[0-9a-f]{12}`. -/
def matchUUID (l : List Char) : Option (List Char) :=
  takeClassN isHexLower 8 l >>= expectChar '-' >>=
    takeClassN isHexLower 4 >>= expectChar '-' >>=
    takeClassN isHexLower 4 >>= expectChar '-' >>=
    takeClassN isHexLower 4 >>= expectChar '-' >>=
    takeClassN isHexLower 12

/-- Match `\d{4}-\d{2}-\d{2}[T ]\d{2}:\d{2}:\d{2}`. -/
def matchTS (l : List Char) : Option (List Char) :=
  takeClassN Char.isDigit 4 l >>= expectChar '-' >>=
    takeClassN Char.isDigit 2 >>= expectChar '-' >>=
    takeClassN Char.isDigit 2 >>= expectOneOf ['T', ' '] >>=
    takeClassN Char.isDigit 2 >>= expectChar ':' >>=
    takeClassN Char.isDigit 2 >>= expectChar ':' >>=
    takeClassN Char.isDigit 2

/-- One `\d{1,3}\.` group of the IPv4 pattern: under backtracking this
matches exactly when the maximal digit run here has length 1–3 and is
followed by a literal dot. -/
def ipGroupDot (l : List Char) : Option (List Char) :=
  let n := (l.takeWhile Char.isDigit).length
  if 1 ≤ n ∧ n ≤ 3 then expectChar '.' (l.drop n) else none

/-- The final `\d{1,3}` group: greedily consumes `min 3` of the digit
run (which must be non-empty). -/
def ipLast (l : List Char) : Option (List Char) :=
  let n := (l.takeWhile Char.isDigit).length
  if 1 ≤ n then some (l.drop (min 3 n)) else none

/-- Match `\d{1,3}\.\d{1,3}\.\d{1,3}\.\d{1,3}`. -/
def matchIP (l : List Char) : Option (List Char) :=
  ipGroupDot l >>= ipGroupDot >>= ipGroupDot >>= ipLast

/-- Match `(?<![A-Z])\d{3,}(?![A-Z])` at this position, given the
character immediately before it in the input (`prev`).  The greedy run
backs off by one digit when an uppercase letter follows (the shortened
run is then followed by a digit, which satisfies the lookahead). -/
def matchNUM (prev : Option Char) (l : List Char) : Option (List Char) :=
  if (match prev with | some c => isUpperAZ c | none => false) then none
  else
    let n := (l.takeWhile Char.isDigit).length
    if n < 3 then none
    else
      match l.drop n with
      | c :: rest =>
          if isUpperAZ c then
            if 4 ≤ n then some (l.drop (n - 1)) else none
          else some (c :: rest)
      | [] => some []

/-- Match `-[a-z0-9]{5,10}(-[a-z0-9]{5})?`: a hyphen, then greedily
`min 10` of the class run (which must have length ≥ 5), then the
optional `-[a-z0-9]{5}` group when it fits. -/
def matchPOD (l : List Char) : Option (List Char) :=
  match expectChar '-' l with
  | none => none
  | some r =>
      let n := (r.takeWhile isLowerAlnum).length
      if n < 5 then none
      else
        let rest := r.drop (min 10 n)
        match expectChar '-' rest >>= takeClassN isLowerAlnum 5 with
        | some rest2 => some rest2
        | none => some rest

/-- `re.sub` scanner: walk the input left to right; where the matcher
fires, emit the replacement and resume after the match (threading the
last consumed character as lookbehind context); otherwise copy one
character.  `fuel` bounds recursion; every matcher consumes at least one
character, so `fuel = length` suffices. -/
def substAux (try_ : Option Char → List Char → Option (List Char))
    (repl : List Char) : Nat → Option Char → List Char → List Char
  | 0, _, l => l
  | _ + 1, _, [] => []
  | fuel + 1, prev, c :: rest =>
    match try_ prev (c :: rest) with
    | some rest' =>
        let n := (c :: rest).length - rest'.length
        repl ++ substAux try_ repl fuel (((c :: rest).take n).getLast?) rest'
    | none => c :: substAux try_ repl fuel (some c) rest

/-- One full `re.sub(pattern, repl, s)` pass. -/
def reSub (try_ : Option Char → List Char → Option (List Char))
    (repl : List Char) (l : List Char) : List Char :=
  substAux try_ repl l.length none l

/-- Strip leading and trailing whitespace (`str.strip()`). -/
def trimChars (l : List Char) : List Char :=
  (((l.dropWhile Char.isWhitespace).reverse).dropWhile
    Char.isWhitespace).reverse

/-- `KnowledgeBase._normalize_error_message`: the five substitution
passes in order, then `.lower().strip()` (lowercasing modelled on the
ASCII range, matching the patterns' ASCII classes). -/
def normalizeErrorMessage (s : String) : String :=
  let l0 := s.data
  let l1 := reSub (fun _ l => matchUUID l) "<UUID>".data l0
  let l2 := reSub (fun _ l => matchTS l) "<TIMESTAMP>".data l1
  let l3 := reSub (fun _ l => matchIP l) "<IP>".data l2
  let l4 := reSub matchNUM "<NUM>".data l3
  let l5 := reSub (fun _ l => matchPOD l) "-<POD_SUFFIX>".data l4
  String.mk (trimChars (l5.map Char.toLower))

/-! ### Failure-predictor ensemble (`src/ml/predictors.py`) -/

/-- The `(predicted, probability)` part of a `PredictionResult`. -/
structure PredictionResultM where
  predicted : Bool
  probability : ℚ
deriving DecidableEq, Repr

/-- `AnomalyDetector.predict` result formation (the z-scores
`|x-μ|/σ` of the features with ≥ 10 samples are taken as inputs): a
feature is anomalous when its z-score ≥ 3.0 (`anomaly_threshold`),
`predicted` iff some feature is anomalous, and the probability is the
piecewise mapping of the maximal z-score (initialised to 0.0). -/
def anomalyResult (zscores : List ℚ) : PredictionResultM :=
  let maxZ := zscores.foldl (fun acc z => max acc z) 0
  let anomalies := zscores.filter (fun z => 3 ≤ z)
  let probability : ℚ :=
    if 3 ≤ maxZ then min (95/100) (1/2 + (maxZ - 3) * (15/100))
    else if 2 ≤ maxZ then 3/10 + (maxZ - 2) * (2/10)
    else maxZ * (15/100)
  { predicted := !anomalies.isEmpty, probability := probability }

/-- `TimeSeriesForecaster.predict` breach evaluation, given the
forecast utilization percentages at the 1800 s horizon (`none` when the
corresponding limit is absent or zero).  Memory breach fires at ≥ 95 %
with probability `min(0.95, (util-90)/10)`, CPU at ≥ 90 % with
`min(0.9, (util-85)/15)`; `max(..., key=probability)` picks the first
of equal maxima, i.e. memory wins ties.  With no breach the result is
`(predicted=False, probability=0.1)`. -/
def tsResult (memUtilForecast cpuUtilForecast : Option ℚ) :
    PredictionResultM :=
  let memBreach : Option ℚ :=
    match memUtilForecast with
    | some u => if 95 ≤ u then some (min (95/100) ((u - 90) / 10)) else none
    | none => none
  let cpuBreach : Option ℚ :=
    match cpuUtilForecast with
    | some u => if 90 ≤ u then some (min (9/10) ((u - 85) / 15)) else none
    | none => none
  match memBreach, cpuBreach with
  | some pm, some pc =>
      { predicted := true, probability := if pm < pc then pc else pm }
  | some pm, none => { predicted := true, probability := pm }
  | none, some pc => { predicted := true, probability := pc }
  | none, none => { predicted := false, probability := 1/10 }

/-- `FailurePredictor._check_patterns` always reports probability 0.0
(the pattern-matching body is a stub returning the neutral value). -/
def checkPatternsProbability : ℚ := 0

/-- The ensemble's weighted probability with the initial weights
`{anomaly: 0.3, time_series: 0.4, pattern: 0.3}`. -/
def weightedSum (anomaly ts : PredictionResultM) (patternProb : ℚ) : ℚ :=
  (3/10) * anomaly.probability + (4/10) * ts.probability +
    (3/10) * patternProb

/-- `signals_triggered` of `FailurePredictor.predict`: the anomaly and
time-series signals count via their `predicted` flags, the pattern
signal via `pattern_probability > 0.5`. -/
def signalsTriggered (anomaly ts : PredictionResultM) (patternProb : ℚ) :
    Nat :=
  (if anomaly.predicted then 1 else 0) + (if ts.predicted then 1 else 0) +
    (if 1/2 < patternProb then 1 else 0)

/-- `FailurePredictor.predict` ensemble combination: the weighted sum,
boosted to `min(0.98, p·1.3)` when at least 2 signals triggered. -/
def ensembleProbability (anomaly ts : PredictionResultM)
    (patternProb : ℚ) : ℚ :=
  let weighted := weightedSum anomaly ts patternProb
  if 2 ≤ signalsTriggered anomaly ts patternProb then
    min (98/100) (weighted * (13/10))
  else weighted

/-! ### Helper lemmas about the safety validator -/

/-- The history stored back by `_check_rate_limit` is the old history with
entries not newer than one hour ago removed. -/
theorem checkRateLimit_snd (now : Int) (vs : ValidatorState) :
    (checkRateLimit now vs).2 =
      vs.action_history.filter (fun t => now - 3600 < t) := by
  unfold checkRateLimit
  dsimp only
  split <;> rfl

/-- The rate-limit check fails exactly when the pruned history has reached
`max_actions_per_hour`. -/
theorem checkRateLimit_passed_iff (now : Int) (vs : ValidatorState) :
    (checkRateLimit now vs).1.passed = false ↔
      vs.max_actions_per_hour ≤
        (vs.action_history.filter (fun t => now - 3600 < t)).length := by
  unfold checkRateLimit
  dsimp only
  split <;> simp_all

/-- The failing rate-limit check is blocking and named `rate_limit`. -/
theorem checkRateLimit_failed_shape (now : Int) (vs : ValidatorState)
    (h : vs.max_actions_per_hour ≤
      (vs.action_history.filter (fun t => now - 3600 < t)).length) :
    (checkRateLimit now vs).1.name = "rate_limit" ∧
      (checkRateLimit now vs).1.passed = false ∧
      (checkRateLimit now vs).1.blocking = true := by
  unfold checkRateLimit
  dsimp only
  split <;> simp_all

/-- `validate` returns the state with `action_history` pruned and nothing
else changed. -/
theorem validate_snd (action : String) (target : TargetDict) (params : Params)
    (cs : Option ClusterState) (now : Int) (vs : ValidatorState) :
    (validate action target params cs now vs).2 =
      { vs with
          action_history :=
            vs.action_history.filter (fun t => now - 3600 < t) } := by
  show ({ vs with action_history := (checkRateLimit now vs).2 }
      : ValidatorState) = _
  rw [checkRateLimit_snd]

/-- The checks list of a validation starts with the rate-limit check. -/
theorem validate_checks_head (action : String) (target : TargetDict)
    (params : Params) (cs : Option ClusterState) (now : Int)
    (vs : ValidatorState) :
    ∃ rest, (validate action target params cs now vs).1.checks =
      (checkRateLimit now vs).1 :: rest :=
  ⟨_, rfl⟩

/-- `safe` is false whenever some check in the list is a blocking
failure. -/
theorem validate_not_safe_of_blocking (action : String) (target : TargetDict)
    (params : Params) (cs : Option ClusterState) (now : Int)
    (vs : ValidatorState) (c : SafetyCheck)
    (hc : c ∈ (validate action target params cs now vs).1.checks)
    (hfail : c.passed = false) (hblock : c.blocking = true) :
    (validate action target params cs now vs).1.safe = false := by
  have hmem : c ∈ ((validate action target params cs now vs).1.checks).filter
      (fun c => !c.passed && c.blocking) :=
    List.mem_filter.mpr ⟨hc, by simp [hfail, hblock]⟩
  show ((((validate action target params cs now vs).1.checks).filter
      (fun c => !c.passed && c.blocking)).length == 0) = false
  simp only [beq_eq_false_iff_ne, ne_eq, List.length_eq_zero]
  exact List.ne_nil_of_mem hmem

/-- Folding `record_action` over a batch of (target, timestamp) entries
appends exactly those timestamps to `action_history` and leaves the
configuration untouched. -/
theorem foldl_recordAction (entries : List (TargetDict × Int))
    (vs : ValidatorState) :
    (entries.foldl (fun s e => recordAction e.1 e.2 s) vs).action_history =
        vs.action_history ++ entries.map Prod.snd ∧
      (entries.foldl (fun s e => recordAction e.1 e.2 s) vs
        ).max_actions_per_hour = vs.max_actions_per_hour := by
  induction entries generalizing vs with
  | nil => simp
  | cons e rest ih =>
      have := ih (recordAction e.1 e.2 vs)
      simp only [List.foldl_cons, List.map_cons] at *
      constructor
      · rw [this.1]
        show vs.action_history ++ [e.2] ++ _ = _
        simp
      · rw [this.2]
        rfl

/-! ### C5: rate limit blocks after `max_actions_per_hour` recorded
actions -/

/-- C5 (confirmed): for every validator with limit `max_actions_per_hour
= N`, after `N` calls to `record_action` whose timestamps all lie within
the last 3600 seconds, the next `validate` returns `safe = false` and its
checks contain a rate-limit check with `passed = false`,
`blocking = true`. -/
theorem claim_C5 (vs : ValidatorState) (entries : List (TargetDict × Int))
    (now : Int) (action : String) (target : TargetDict) (params : Params)
    (cs : Option ClusterState)
    (hlen : entries.length = vs.max_actions_per_hour)
    (hwin : ∀ e ∈ entries, now - 3600 < e.2) :
    (validate action target params cs now
        (entries.foldl (fun s e => recordAction e.1 e.2 s) vs)).1.safe
      = false ∧
    ∃ c ∈ (validate action target params cs now
        (entries.foldl (fun s e => recordAction e.1 e.2 s) vs)).1.checks,
      c.name = "rate_limit" ∧ c.passed = false ∧ c.blocking = true := by
  set vs' := entries.foldl (fun s e => recordAction e.1 e.2 s) vs with hvs'
  have hfold := foldl_recordAction entries vs
  have hge : vs'.max_actions_per_hour ≤
      (vs'.action_history.filter (fun t => now - 3600 < t)).length := by
    rw [hfold.1, hfold.2, List.filter_append]
    have hall : (entries.map Prod.snd).filter (fun t => now - 3600 < t) =
        entries.map Prod.snd := by
      apply List.filter_eq_self.mpr
      intro a ha
      obtain ⟨e, he, rfl⟩ := List.mem_map.mp ha
      simpa using hwin e he
    rw [hall, List.length_append, List.length_map, hlen]
    exact Nat.le_add_left _ _
  have hshape := checkRateLimit_failed_shape now vs' hge
  obtain ⟨rest, hchecks⟩ :=
    validate_checks_head action target params cs now vs'
  have hmem : (checkRateLimit now vs').1 ∈
      (validate action target params cs now vs').1.checks := by
    rw [hchecks]; exact List.mem_cons_self _ _
  refine ⟨?_, ⟨(checkRateLimit now vs').1, hmem, hshape.1, hshape.2.1,
    hshape.2.2⟩⟩
  exact validate_not_safe_of_blocking action target params cs now vs' _
    hmem hshape.2.1 hshape.2.2

/-- Witness for C5: the default validator (limit 20) after 20 recorded
actions at time 0 rejects a validation at time 10. -/
theorem claim_C5_witness :
    (validate "scale_memory_up"
        { kind := "Pod", namespace_ := "default", name := "p", labels := [] }
        [] none 10
        ((List.replicate 20
            ({ kind := "Pod", namespace_ := "default", name := "p"
               labels := [] }, (0 : Int))).foldl
          (fun s e => recordAction e.1 e.2 s) ValidatorState.default)).1.safe
      = false := by
  have h := claim_C5 ValidatorState.default
    (List.replicate 20
      ({ kind := "Pod", namespace_ := "default", name := "p"
         labels := [] }, (0 : Int)))
    10 "scale_memory_up"
    { kind := "Pod", namespace_ := "default", name := "p", labels := [] }
    [] none (by decide) (by decide)
  exact h.1

/-! ### C10: `validate` only prunes state -/

/-- State after a sequence of `validate` calls (each a tuple of action,
target, parameters, cluster state and current time), none of which is
accompanied by a `record_action`. -/
def applyValidates
    (calls : List (String × TargetDict × Params × Option ClusterState × Int))
    (vs : ValidatorState) : ValidatorState :=
  calls.foldl
    (fun s c => (validate c.1 c.2.1 c.2.2.1 c.2.2.2.1 c.2.2.2.2 s).2) vs

/-- A sequence of `validate` calls leaves `recent_targets` and the
configuration untouched and only removes `action_history` entries. -/
theorem applyValidates_frame
    (calls : List (String × TargetDict × Params × Option ClusterState × Int))
    (vs : ValidatorState) :
    (applyValidates calls vs).recent_targets = vs.recent_targets ∧
      (applyValidates calls vs).max_actions_per_hour =
        vs.max_actions_per_hour ∧
      (applyValidates calls vs).cooldown_seconds = vs.cooldown_seconds ∧
      (applyValidates calls vs).action_history.Sublist vs.action_history := by
  induction calls generalizing vs with
  | nil => exact ⟨rfl, rfl, rfl, List.Sublist.refl _⟩
  | cons c rest ih =>
      have hstep :
          (validate c.1 c.2.1 c.2.2.1 c.2.2.2.1 c.2.2.2.2 vs).2 =
            { vs with
                action_history := vs.action_history.filter
                  (fun t => c.2.2.2.2 - 3600 < t) } :=
        validate_snd _ _ _ _ _ _
      have hcons : applyValidates (c :: rest) vs =
          applyValidates rest
            ((validate c.1 c.2.1 c.2.2.1 c.2.2.2.1 c.2.2.2.2 vs).2) := rfl
      rw [hcons, hstep]
      have h := ih
        { vs with
            action_history := vs.action_history.filter
              (fun t => c.2.2.2.2 - 3600 < t) }
      exact ⟨h.1, h.2.1, h.2.2.1, h.2.2.2.trans (List.filter_sublist _)⟩

/-- The cooldown check only reads `recent_targets` and
`cooldown_seconds`. -/
theorem checkCooldown_congr (now : Int) (target : TargetDict)
    (vs₁ vs₂ : ValidatorState)
    (h₁ : vs₁.recent_targets = vs₂.recent_targets)
    (h₂ : vs₁.cooldown_seconds = vs₂.cooldown_seconds) :
    checkCooldown now vs₁ target = checkCooldown now vs₂ target := by
  unfold checkCooldown
  rw [h₁, h₂]

/-- C10 (confirmed): `validate` never adds entries to `action_history` or
`recent_targets` — it returns the state with `action_history` pruned to
the last hour and everything else unchanged — and after any number of
`validate` calls without an intervening `record_action`, the rate-limit
check cannot fail unless it already failed on the original state, and
the cooldown check is unchanged. -/
theorem claim_C10 (action : String) (target : TargetDict) (params : Params)
    (cs : Option ClusterState) (now : Int) (vs : ValidatorState)
    (calls : List (String × TargetDict × Params × Option ClusterState × Int))
    (now' : Int) (target' : TargetDict) :
    (validate action target params cs now vs).2.recent_targets =
        vs.recent_targets ∧
      (validate action target params cs now vs).2.action_history =
        vs.action_history.filter (fun t => now - 3600 < t) ∧
      ((checkRateLimit now' (applyValidates calls vs)).1.passed = false →
        (checkRateLimit now' vs).1.passed = false) ∧
      checkCooldown now' (applyValidates calls vs) target' =
        checkCooldown now' vs target' := by
  have hsnd := validate_snd action target params cs now vs
  have hframe := applyValidates_frame calls vs
  refine ⟨by rw [hsnd], by rw [hsnd], ?_, ?_⟩
  · intro hfail
    rw [checkRateLimit_passed_iff] at hfail ⊢
    rw [hframe.2.1] at hfail
    refine hfail.trans (List.Sublist.length_le ?_)
    exact List.Sublist.filter _ hframe.2.2.2
  · exact checkCooldown_congr now' target' _ vs hframe.1 hframe.2.2.1

/-- Witness for C10: on a validator whose history already exceeds the
limit, the rate check fails after two intervening `validate` calls, and
the theorem transports that failure back to the original state. -/
theorem claim_C10_witness :
    (checkRateLimit 10
        { ValidatorState.default with
            action_history := List.replicate 20 (0 : Int) }).1.passed
      = false := by
  have h := claim_C10 "restart_pod"
    { kind := "Pod", namespace_ := "default", name := "p", labels := [] }
    [] none 5
    { ValidatorState.default with
        action_history := List.replicate 20 (0 : Int) }
    [("restart_pod",
      { kind := "Pod", namespace_ := "default", name := "p", labels := [] },
      [], none, 5),
     ("restart_pod",
      { kind := "Pod", namespace_ := "default", name := "p", labels := [] },
      [], none, 7)]
    10
    { kind := "Pod", namespace_ := "default", name := "p", labels := [] }
  exact h.2.2.1 (by decide)

/-! ### C2: which approval-triggering check names the reason -/

/-- A target in the protected namespace `kube-system`. -/
def c2Target : TargetDict :=
  { kind := "Pod", namespace_ := "kube-system", name := "api", labels := [] }

/-- C2 counterexample: for `delete_pod` on a `kube-system` target, both
the protected-namespace check (the first approval-triggering check) and
the high-risk-action check trigger, yet `approval_reason` is the
high-risk message, not the protected-namespace message. -/
theorem claim_C2_counterexample :
    (validate "delete_pod" c2Target [] none 0
        ValidatorState.default).1.requires_approval = true ∧
      (checkProtectedNamespace c2Target).passed = false ∧
      highRiskActions.contains "delete_pod" = true ∧
      (validate "delete_pod" c2Target [] none 0
          ValidatorState.default).1.approval_reason =
        some "High-risk action: delete_pod" ∧
      some "High-risk action: delete_pod" ≠
        (some "Target is in protected namespace: kube-system" :
          Option String) := by
  exact ⟨rfl, rfl, rfl, rfl, by decide⟩

/-- The reason of the *last* approval-triggering check in the check order
protected_namespace, protected_workload, high_risk_action,
blast_radius. -/
def lastApprovalReason (action : String) (target : TargetDict)
    (cs : Option ClusterState) (vs : ValidatorState) : Option String :=
  let fromNonBlast : Option String :=
    if highRiskActions.contains action then
      some ("High-risk action: " ++ action)
    else if !(checkProtectedWorkload target).passed then
      some (checkProtectedWorkload target).message
    else if !(checkProtectedNamespace target).passed then
      some ("Target is in protected namespace: " ++ target.namespace_)
    else none
  match cs with
  | some c =>
      if (checkBlastRadius vs action c).risk_level = .high then
        some (checkBlastRadius vs action c).message
      else fromNonBlast
  | none => fromNonBlast

/-- C2 amended: the sequential overwrites in `validate` make
`approval_reason` the reason of the *last* approval-triggering check
(in the order protected_namespace, protected_workload,
high_risk_action, blast_radius), not the first. -/
theorem claim_C2_amended (action : String) (target : TargetDict)
    (params : Params) (cs : Option ClusterState) (now : Int)
    (vs : ValidatorState) :
    (validate action target params cs now vs).1.approval_reason =
      lastApprovalReason action target cs vs := by
  unfold validate lastApprovalReason
  dsimp only
  cases cs with
  | none =>
      by_cases hhr : highRiskActions.contains action = true <;>
        by_cases hwl : (checkProtectedWorkload target).passed = true <;>
          by_cases hns : (checkProtectedNamespace target).passed = true <;>
            simp_all
  | some c =>
      by_cases hb : (checkBlastRadius vs action c).risk_level = .high <;>
        by_cases hhr : highRiskActions.contains action = true <;>
          by_cases hwl : (checkProtectedWorkload target).passed = true <;>
            by_cases hns : (checkProtectedNamespace target).passed = true <;>
              simp_all

/-! ### Engine fixtures for concrete counterexamples and witnesses -/

/-- An unprotected target in an unprotected namespace. -/
def okTarget : TargetDict :=
  { kind := "Pod", namespace_ := "default", name := "api", labels := [] }

/-- The corresponding resource object. -/
def okResource : KubernetesResource :=
  { kind := "Pod", name := "api", namespace_ := "default", labels := [] }

/-- A freshly planned remediation (dataclass defaults) on `okResource`. -/
def mkRemediation (id : String) (a : RemediationAction) : Remediation :=
  { id := id
    action := a
    target_resource := some okResource
    incident_id := none
    parameters := []
    outcome := .pending_approval
    executed_at := none
    completed_at := none
    error_message := none
    dry_run := false
    requires_approval := false
    approved_by := none
    rollback_remediation_id := none }

/-- An engine with empty history, registry, and default validator. -/
def emptyEngine : EngineState :=
  { dry_run := false
    history := []
    pending_approvals := []
    validator := ValidatorState.default
    kb_remediations := [] }

/-- A validator that already performed 20 actions in the last hour. -/
def c1Validator : ValidatorState :=
  { ValidatorState.default with action_history := List.replicate 20 0 }

/-- A validation blocked by the rate limit (`safe = false`). -/
def c1Validation : SafetyValidation :=
  (validate "scale_memory_up" okTarget [] none 10 c1Validator).1

/-- A plan whose safety validation is blocked. -/
def c1Plan : RemediationPlan :=
  { remediation := mkRemediation "r1" .scale_memory_up
    safety_validation := c1Validation
    estimated_impact := ""
    estimated_duration_seconds := 60
    can_rollback := true
    rollback_plan := none }

/-- A clean validation on `okTarget` (`safe`, no approval needed). -/
def okValidation : SafetyValidation :=
  (validate "scale_memory_up" okTarget [] none 0 ValidatorState.default).1

/-- A safe, approval-free plan. -/
def okPlan : RemediationPlan :=
  { remediation := mkRemediation "r0" .scale_memory_up
    safety_validation := okValidation
    estimated_impact := ""
    estimated_duration_seconds := 60
    can_rollback := true
    rollback_plan := none }

/-! ### C1: terminal outcome iff `completed_at` set -/

/-- C1 counterexample: a remediation blocked by its safety validation is
returned with the terminal outcome SKIPPED but `completed_at` still
null, so the claimed equivalence fails on it. -/
theorem claim_C1_counterexample :
    c1Plan.safety_validation.safe = false ∧
      (execute c1Plan none 10 defaultHandlers emptyEngine).1.outcome =
        .skipped ∧
      ((execute c1Plan none 10 defaultHandlers
          emptyEngine).1.outcome.isTerminal) = true ∧
      (execute c1Plan none 10 defaultHandlers emptyEngine).1.completed_at =
        none :=
  ⟨rfl, rfl, rfl, rfl⟩

/-- C1 amended: for a plan whose safety validation is safe and whose
remediation has not completed yet, `execute` returns a remediation whose
outcome is terminal iff its `completed_at` is set.  (On the
safety-blocked path the returned remediation has terminal outcome
SKIPPED with `completed_at` null.) -/
theorem claim_C1 (plan : RemediationPlan) (approved_by : Option String)
    (now : Int) (handlers : Handlers) (st : EngineState)
    (hsafe : plan.safety_validation.safe = true)
    (hfresh : plan.remediation.completed_at = none) :
    ((execute plan approved_by now handlers st).1.outcome.isTerminal = true
      ↔ (execute plan approved_by now handlers st).1.completed_at ≠ none)
    := by
  by_cases hreq : plan.safety_validation.requires_approval = true <;>
    by_cases hap : truthy approved_by = true <;>
      by_cases hdry : st.dry_run = true
  all_goals
    rcases hh : handlers plan.remediation.action with _ | (b | m)
  all_goals
    try cases b
  all_goals
    simp_all [execute, finishExecution, RemediationOutcome.isTerminal]

/-- Witness for C1 amended: on a safe, approval-free plan the equivalence
is inhabited. -/
theorem claim_C1_witness :
    ((execute okPlan none 0 defaultHandlers emptyEngine).1.outcome.isTerminal
        = true
      ↔ (execute okPlan none 0 defaultHandlers emptyEngine).1.completed_at ≠
        none) :=
  claim_C1 okPlan none 0 defaultHandlers emptyEngine rfl rfl

/-! ### C7: execution contract for safe, approval-cleared plans -/

/-- C7 (confirmed): for a safe, approval-cleared plan — in dry-run mode
the outcome is DRY_RUN and the result does not depend on the handler
registry (no handler runs); without a registered handler the outcome is
SKIPPED; a handler that raises yields FAILED with the exception message
in `error_message`. -/
theorem claim_C7 (plan : RemediationPlan) (approved_by : Option String)
    (now : Int) (handlers : Handlers) (st : EngineState)
    (hsafe : plan.safety_validation.safe = true)
    (happ : plan.safety_validation.requires_approval = true →
      truthy approved_by = true) :
    (st.dry_run = true →
      (execute plan approved_by now handlers st).1.outcome = .dry_run ∧
      ∀ handlers' : Handlers,
        execute plan approved_by now handlers' st =
          execute plan approved_by now handlers st) ∧
    (st.dry_run = false → handlers plan.remediation.action = none →
      (execute plan approved_by now handlers st).1.outcome = .skipped) ∧
    (st.dry_run = false → ∀ msg,
      handlers plan.remediation.action = some (.throws msg) →
      (execute plan approved_by now handlers st).1.outcome = .failed ∧
      (execute plan approved_by now handlers st).1.error_message =
        some msg) := by
  have hgate : (plan.safety_validation.requires_approval &&
      !truthy approved_by) = false := by
    by_cases hreq : plan.safety_validation.requires_approval = true
    · simp [hreq, happ hreq]
    · simp [Bool.eq_false_iff.mpr hreq]
  by_cases hap : truthy approved_by = true
  all_goals
    refine ⟨fun hdry => ⟨?_, fun handlers' => ?_⟩,
      fun hdry hnone => ?_, fun hdry msg hthrows => ?_⟩ <;>
    simp_all [execute, finishExecution, hgate]

/-- Witness for C7: dry-run on a safe plan gives DRY_RUN. -/
theorem claim_C7_witness :
    (execute okPlan none 0 defaultHandlers
        { emptyEngine with dry_run := true }).1.outcome = .dry_run := by
  have h := claim_C7 okPlan none 0 defaultHandlers
    { emptyEngine with dry_run := true } rfl (by intro h; cases h)
  exact (h.1 rfl).1

/-! ### C9: what `execute` mutates on the refusal paths -/

/-- A safe validation that requires approval (high-risk `delete_pod`). -/
def c9Validation : SafetyValidation :=
  (validate "delete_pod" okTarget [] none 0 ValidatorState.default).1

/-- A safe plan that requires approval. -/
def c9Plan : RemediationPlan :=
  { remediation := mkRemediation "r9" .delete_pod
    safety_validation := c9Validation
    estimated_impact := ""
    estimated_duration_seconds := 60
    can_rollback := false
    rollback_plan := none }

/-- C9 counterexample: executing a safe plan that requires approval
without an approver *does* mutate engine state — the plan is inserted
into the pending-approval registry. -/
theorem claim_C9_counterexample :
    c9Plan.safety_validation.safe = true ∧
      c9Plan.safety_validation.requires_approval = true ∧
      (execute c9Plan none 0 defaultHandlers emptyEngine).2.pending_approvals
        ≠ emptyEngine.pending_approvals := by
  refine ⟨rfl, rfl, by decide⟩

/-- C9 amended: on the safety-blocked path `execute` changes no engine or
validator state at all; on the approval-pending path it changes only the
pending-approval registry — history, the knowledge-base records and the
validator (rate-limit history and cooldown anchors) are unchanged and
`record_action` is not called. -/
theorem claim_C9 (plan : RemediationPlan) (approved_by : Option String)
    (now : Int) (handlers : Handlers) (st : EngineState) :
    (plan.safety_validation.safe = false →
      (execute plan approved_by now handlers st).2 = st) ∧
    (plan.safety_validation.safe = true →
      plan.safety_validation.requires_approval = true →
      truthy approved_by = false →
      ((execute plan approved_by now handlers st).2.history = st.history ∧
        (execute plan approved_by now handlers st).2.kb_remediations =
          st.kb_remediations ∧
        (execute plan approved_by now handlers st).2.validator =
          st.validator ∧
        (execute plan approved_by now handlers st).2.pending_approvals =
          dictInsertPlan plan.remediation.id
            { plan with remediation :=
                { plan.remediation with outcome := .pending_approval } }
            st.pending_approvals)) := by
  constructor
  · intro hunsafe
    simp [execute, hunsafe]
  · intro hsafe hreq hap
    simp [execute, hsafe, hreq, hap]

/-- Witness for C9 amended: the safety-blocked path leaves the engine
state untouched on a concrete blocked plan. -/
theorem claim_C9_witness :
    (execute c1Plan none 10 defaultHandlers emptyEngine).2 = emptyEngine :=
  (claim_C9 c1Plan none 10 defaultHandlers emptyEngine).1 rfl

/-! ### Helper lemmas about `execute` (used for the rollback claim) -/

/-- `execute` never changes the identity, action, target or parameters of
the plan's remediation. -/
theorem execute_fields (plan : RemediationPlan) (approved_by : Option String)
    (now : Int) (handlers : Handlers) (st : EngineState) :
    (execute plan approved_by now handlers st).1.id =
        plan.remediation.id ∧
      (execute plan approved_by now handlers st).1.action =
        plan.remediation.action ∧
      (execute plan approved_by now handlers st).1.parameters =
        plan.remediation.parameters ∧
      (execute plan approved_by now handlers st).1.target_resource =
        plan.remediation.target_resource := by
  by_cases hs : plan.safety_validation.safe = true <;>
    by_cases hreq : (plan.safety_validation.requires_approval &&
      !truthy approved_by) = true <;>
      by_cases hap : truthy approved_by = true <;>
        by_cases hdry : st.dry_run = true
  all_goals
    rcases hh : handlers plan.remediation.action with _ | (b | m)
  all_goals
    try cases b
  all_goals
    simp_all [execute, finishExecution]

/-- A successful result of `execute` with a truthy approver carries that
approver. -/
theorem execute_successful_approved (plan : RemediationPlan) (a : String)
    (now : Int) (handlers : Handlers) (st : EngineState) (ha : a ≠ "")
    (hsucc : (execute plan (some a) now handlers st).1.is_successful
      = true) :
    (execute plan (some a) now handlers st).1.approved_by = some a := by
  revert hsucc
  have hap : truthy (some a) = true := by simp [truthy, ha]
  by_cases hs : plan.safety_validation.safe = true <;>
    by_cases hreq : (plan.safety_validation.requires_approval &&
      !truthy (some a)) = true <;>
      by_cases hdry : st.dry_run = true
  all_goals
    rcases hh : handlers plan.remediation.action with _ | (b | m)
  all_goals
    try cases b
  all_goals
    simp_all [execute, finishExecution, Remediation.is_successful]

/-- A successful result of `execute` was appended to the engine history
(and to the knowledge-base records). -/
theorem execute_successful_history (plan : RemediationPlan)
    (approved_by : Option String) (now : Int) (handlers : Handlers)
    (st : EngineState)
    (hsucc : (execute plan approved_by now handlers st).1.is_successful
      = true) :
    (execute plan approved_by now handlers st).2.history =
      st.history ++ [(execute plan approved_by now handlers st).1] := by
  revert hsucc
  by_cases hs : plan.safety_validation.safe = true <;>
    by_cases hreq : (plan.safety_validation.requires_approval &&
      !truthy approved_by) = true <;>
      by_cases hap : truthy approved_by = true <;>
        by_cases hdry : st.dry_run = true
  all_goals
    rcases hh : handlers plan.remediation.action with _ | (b | m)
  all_goals
    try cases b
  all_goals
    simp_all [execute, finishExecution, Remediation.is_successful]

/-- Looking up a key after an entry-wise map that rewrites values but
keeps keys gives the rewritten value of the first hit. -/
theorem lookup_keyPreservingMap (a : String) (f : String × Int → Int)
    (l : List (String × Int)) :
    List.lookup a (l.map (fun kv => (kv.1, f kv))) =
      (l.find? (fun kv => a == kv.1)).map f := by
  induction l with
  | nil => rfl
  | cons kv t ih =>
      by_cases h : a = kv.1
      · simp [List.lookup_cons, List.find?_cons, h, ih]
      · have hb : (a == kv.1) = false := by
          simpa using h
        simp [List.lookup_cons, List.find?_cons, hb, ih]

/-- `List.lookup` as a `find?` over keys. -/
theorem lookup_eq_find (a : String) (l : List (String × Int)) :
    List.lookup a l = (l.find? (fun kv => a == kv.1)).map Prod.snd := by
  induction l with
  | nil => rfl
  | cons kv t ih =>
      obtain ⟨k, v⟩ := kv
      by_cases h : a = k
      · simp [List.lookup_cons, List.find?_cons, h]
      · have hb : (a == k) = false := by
          simpa using h
        simp [List.lookup_cons, List.find?_cons, hb, ih]

/-- `Params.get` over a key-preserving entry-wise rewrite picks the
rewritten value of the first entry with the key. -/
theorem Params.get_map_keyPreserving (g : String × Int → Int) (l : Params)
    (a : String) (d : Int) :
    Params.get (l.map (fun kv => (kv.1, g kv))) a d =
      match l.find? (fun kv => a == kv.1) with
      | some kv => g kv
      | none => d := by
  unfold Params.get
  rw [lookup_keyPreservingMap]
  cases l.find? (fun kv => a == kv.1) <;> rfl

/-- `_get_rollback_parameters` swaps the values of `old_memory_bytes` and
`new_memory_bytes` when both keys are present. -/
theorem getRollbackParameters_swap (r : Remediation)
    (h1 : r.parameters.hasKey "old_memory_bytes" = true)
    (h2 : r.parameters.hasKey "new_memory_bytes" = true) :
    (getRollbackParameters r).get "old_memory_bytes" 0 =
        r.parameters.get "new_memory_bytes" 0 ∧
      (getRollbackParameters r).get "new_memory_bytes" 0 =
        r.parameters.get "old_memory_bytes" 0 := by
  have hmap : ∀ (kv : String × Int),
      (if kv.1 = "old_memory_bytes" then
        (kv.1, r.parameters.get "new_memory_bytes" 0)
      else if kv.1 = "new_memory_bytes" then
        (kv.1, r.parameters.get "old_memory_bytes" 0)
      else kv)
      = (kv.1, if kv.1 = "old_memory_bytes" then
          r.parameters.get "new_memory_bytes" 0
        else if kv.1 = "new_memory_bytes" then
          r.parameters.get "old_memory_bytes" 0
        else kv.2) := by
    intro kv
    by_cases ha : kv.1 = "old_memory_bytes" <;>
      by_cases hb : kv.1 = "new_memory_bytes" <;> simp [ha, hb]
  unfold Params.hasKey at h1 h2
  rw [Option.isSome_iff_exists] at h1 h2
  obtain ⟨vo, hvo⟩ := h1
  obtain ⟨vn, hvn⟩ := h2
  have hfo := hvo
  have hfn := hvn
  rw [lookup_eq_find] at hfo hfn
  obtain ⟨kvo, hkvo, hkvo2⟩ := Option.map_eq_some'.mp hfo
  obtain ⟨kvn, hkvn, hkvn2⟩ := Option.map_eq_some'.mp hfn
  have hko' : ("old_memory_bytes" == kvo.1) = true := by
    have h := List.find?_some hkvo
    exact h
  have hkn' : ("new_memory_bytes" == kvn.1) = true := by
    have h := List.find?_some hkvn
    exact h
  have hko : kvo.1 = "old_memory_bytes" := (eq_of_beq hko').symm
  have hkn : kvn.1 = "new_memory_bytes" := (eq_of_beq hkn').symm
  unfold getRollbackParameters
  rw [show (r.parameters.hasKey "old_memory_bytes" &&
        r.parameters.hasKey "new_memory_bytes") = true by
      unfold Params.hasKey
      rw [hvo, hvn]
      rfl]
  simp only [if_true]
  rw [funext hmap, Params.get_map_keyPreserving,
    Params.get_map_keyPreserving, hkvo, hkvn]
  dsimp only
  constructor
  · rw [hko, if_pos rfl]
  · rw [hkn,
      if_neg (by decide : ¬("new_memory_bytes" : String) =
        "old_memory_bytes"),
      if_pos rfl]

/-! ### C6: rollback pairing -/

/-- A successfully executed `restart_pod` remediation. -/
def c6Orig : Remediation :=
  { mkRemediation "r1" .restart_pod with outcome := .success }

/-- An engine whose history holds `c6Orig`. -/
def c6Engine : EngineState := { emptyEngine with history := [c6Orig] }

/-- C6 counterexample: `rollback` also refuses a remediation whose
outcome *is* successful when its action has no inverse (`restart_pod`),
so "refuses exactly when the outcome is not successful" fails. -/
theorem claim_C6_counterexample :
    c6Orig.is_successful = true ∧
      c6Engine.history.find? (fun r => r.id = "r1") = some c6Orig ∧
      rollback "r1" "r2" 0 defaultHandlers c6Engine = (none, c6Engine) :=
  ⟨rfl, rfl, rfl⟩

/-- C6 amended: `rollback` refuses when the original's outcome is not
successful *or its action has no inverse*; otherwise it creates a
remediation with the inverse action and the old/new memory parameters
swapped, executed through the engine gate with
`approved_by = "system_rollback"`, and on success the two remediations
are linked through their `rollback_remediation_id` fields. -/
theorem claim_C6 (st : EngineState) (rid newId : String) (now : Int)
    (handlers : Handlers) (orig : Remediation) (inv : RemediationAction)
    (hfind : st.history.find? (fun r => r.id = rid) = some orig)
    (hsucc : orig.is_successful = true)
    (hinv : getRollbackAction orig.action = some inv) :
    ∃ res, (rollback rid newId now handlers st).1 = some res ∧
      res.action = inv ∧
      res.parameters = getRollbackParameters orig ∧
      (orig.parameters.hasKey "old_memory_bytes" = true →
        orig.parameters.hasKey "new_memory_bytes" = true →
        res.parameters.get "old_memory_bytes" 0 =
            orig.parameters.get "new_memory_bytes" 0 ∧
          res.parameters.get "new_memory_bytes" 0 =
            orig.parameters.get "old_memory_bytes" 0) ∧
      (res.is_successful = true →
        res.approved_by = some "system_rollback" ∧
        res.rollback_remediation_id = some orig.id ∧
        ∃ o' ∈ (rollback rid newId now handlers st).2.history,
          o'.id = orig.id ∧ o'.rollback_remediation_id = some res.id) := by
  unfold rollback
  rw [hfind]
  simp only [hsucc, Bool.not_true, Bool.false_eq_true, if_false, ite_false]
  rw [hinv]
  dsimp only
  set plan : RemediationPlan :=
    { remediation :=
        { id := newId
          action := inv
          target_resource := orig.target_resource
          incident_id := none
          parameters := getRollbackParameters orig
          outcome := .pending_approval
          executed_at := none
          completed_at := none
          error_message := none
          dry_run := false
          requires_approval := false
          approved_by := none
          rollback_remediation_id := none }
      safety_validation :=
        (validate inv.value
          (match orig.target_resource with
           | some tr => tr.toTargetDict
           | none =>
               { kind := "Unknown", namespace_ := "default"
                 name := "unknown", labels := [] })
          (getRollbackParameters orig) none now st.validator).1
      estimated_impact := "Reverting previous change"
      estimated_duration_seconds := 30
      can_rollback := false
      rollback_plan := none } with hplan
  set st1 : EngineState :=
    { st with
        validator :=
          (validate inv.value
            (match orig.target_resource with
             | some tr => tr.toTargetDict
             | none =>
                 { kind := "Unknown", namespace_ := "default"
                   name := "unknown", labels := [] })
            (getRollbackParameters orig) none now st.validator).2 } with hst1
  have hfields := execute_fields plan (some "system_rollback") now handlers
    st1
  by_cases hres : (execute plan (some "system_rollback") now handlers
      st1).1.is_successful = true
  · refine ⟨_, by rw [if_pos hres], ?_, ?_, ?_, ?_⟩
    · show (execute plan (some "system_rollback") now handlers
        st1).1.action = inv
      rw [hfields.2.1]
    · show (execute plan (some "system_rollback") now handlers
        st1).1.parameters = getRollbackParameters orig
      rw [hfields.2.2.1]
    · intro h1 h2
      show ((execute plan (some "system_rollback") now handlers
          st1).1.parameters.get "old_memory_bytes" 0 = _) ∧ _
      rw [hfields.2.2.1]
      exact getRollbackParameters_swap orig h1 h2
    · intro _
      refine ⟨?_, rfl, ?_⟩
      · show (execute plan (some "system_rollback") now handlers
          st1).1.approved_by = some "system_rollback"
        exact execute_successful_approved plan "system_rollback" now
          handlers st1 (by decide) hres
      · rw [if_pos hres]
        have hhist := execute_successful_history plan
          (some "system_rollback") now handlers st1 hres
        have hmem : orig ∈ st.history := List.mem_of_find?_eq_some hfind
        have hmem2 : orig ∈ st1.history ++
            [(execute plan (some "system_rollback") now handlers st1).1] :=
          List.mem_append_left _ hmem
        rw [hhist]
        refine ⟨_, List.mem_map_of_mem _ hmem2, ?_, ?_⟩
        · rw [if_pos rfl]
        · rw [if_pos rfl]
  · refine ⟨_, by rw [if_neg hres], ?_, ?_, ?_, ?_⟩
    · exact hfields.2.1
    · exact hfields.2.2.1
    · intro h1 h2
      rw [hfields.2.2.1]
      exact getRollbackParameters_swap orig h1 h2
    · intro hcontra
      exact absurd hcontra hres

/-- A successfully executed `scale_memory_up` remediation with memory
parameters. -/
def c6MemOrig : Remediation :=
  { mkRemediation "m1" .scale_memory_up with
      outcome := .success
      parameters := [("old_memory_bytes", 536870912),
                     ("new_memory_bytes", 805306368)] }

/-- Witness for C6 amended: rolling back a successful `scale_memory_up`
produces a `scale_memory_down` with the memory values swapped. -/
theorem claim_C6_witness :
    ∃ res, (rollback "m1" "m2" 0 defaultHandlers
        { emptyEngine with history := [c6MemOrig] }).1 = some res ∧
      res.action = .scale_memory_down ∧
      res.parameters = getRollbackParameters c6MemOrig ∧
      (c6MemOrig.parameters.hasKey "old_memory_bytes" = true →
        c6MemOrig.parameters.hasKey "new_memory_bytes" = true →
        res.parameters.get "old_memory_bytes" 0 =
            c6MemOrig.parameters.get "new_memory_bytes" 0 ∧
          res.parameters.get "new_memory_bytes" 0 =
            c6MemOrig.parameters.get "old_memory_bytes" 0) ∧
      (res.is_successful = true →
        res.approved_by = some "system_rollback" ∧
        res.rollback_remediation_id = some c6MemOrig.id ∧
        ∃ o' ∈ (rollback "m1" "m2" 0 defaultHandlers
            { emptyEngine with history := [c6MemOrig] }).2.history,
          o'.id = c6MemOrig.id ∧
            o'.rollback_remediation_id = some res.id) :=
  claim_C6 { emptyEngine with history := [c6MemOrig] } "m1" "m2" 0
    defaultHandlers c6MemOrig .scale_memory_down rfl rfl rfl

/-! ### C8: ordering of recommended actions -/

/-- The descending-rate relation used for sorting recommendations. -/
def rateDesc (a b : RemediationAction × ℚ) : Prop := b.2 ≤ a.2

/-- `insertDesc` inserts, as a permutation. -/
theorem insertDesc_perm (x : RemediationAction × ℚ) :
    ∀ l, List.Perm (insertDesc x l) (x :: l)
  | [] => List.Perm.refl _
  | h :: t => by
      unfold insertDesc
      split
      · exact List.Perm.refl _
      · exact ((insertDesc_perm x t).cons h).trans (List.Perm.swap x h t)

/-- `insertDesc` preserves descending sortedness. -/
theorem insertDesc_sorted (x : RemediationAction × ℚ) :
    ∀ l, l.Pairwise rateDesc → (insertDesc x l).Pairwise rateDesc
  | [], _ => List.pairwise_singleton _ _
  | h :: t, hs => by
      unfold insertDesc
      rcases List.pairwise_cons.mp hs with ⟨hht, hts⟩
      split
      · rename_i hc
        refine List.pairwise_cons.mpr ⟨?_, hs⟩
        intro y hy
        rcases List.mem_cons.mp hy with rfl | hyt
        · exact le_of_lt hc
        · exact (hht y hyt).trans (le_of_lt hc)
      · rename_i hc
        refine List.pairwise_cons.mpr ⟨?_, insertDesc_sorted x t hts⟩
        intro y hy
        have hy' := (List.Perm.mem_iff (insertDesc_perm x t)).mp hy
        rcases List.mem_cons.mp hy' with rfl | hyt
        · exact not_lt.mp hc
        · exact hht y hyt

/-- Stability of `insertDesc` on a sorted accumulator: restricted to any
single rate, the new element lands at the end of its class. -/
theorem insertDesc_filter (x : RemediationAction × ℚ) (r : ℚ) :
    ∀ l, l.Pairwise rateDesc →
      (insertDesc x l).filter (fun y => y.2 == r) =
        if x.2 = r then l.filter (fun y => y.2 == r) ++ [x]
        else l.filter (fun y => y.2 == r)
  | [], _ => by
      by_cases hx : x.2 = r <;> simp [insertDesc, hx]
  | h :: t, hs => by
      rcases List.pairwise_cons.mp hs with ⟨hht, hts⟩
      unfold insertDesc
      split
      · rename_i hc
        have hnil : (h :: t).filter (fun y => y.2 == r) = [] ∨ ¬x.2 = r := by
          by_cases hx : x.2 = r
          · left
            apply List.filter_eq_nil_iff.mpr
            intro y hy
            have hle : y.2 ≤ h.2 := by
              rcases List.mem_cons.mp hy with rfl | hyt
              · exact le_refl _
              · exact hht y hyt
            have : y.2 < r := hx ▸ lt_of_le_of_lt hle hc
            simpa using ne_of_lt this
          · right; exact hx
        by_cases hx : x.2 = r
        · rcases hnil with hnil | hnx
          · simp [hx, hnil]
          · exact absurd hx hnx
        · simp only [hx, if_false, ite_false]
          have hxb : (x.2 == r) = false := by simpa using hx
          simp [List.filter_cons, hxb]
      · rename_i hc
        have ih := insertDesc_filter x r t hts
        by_cases hx : x.2 = r <;>
          by_cases hh : h.2 = r <;>
            simp_all [List.filter_cons]

/-- Folding `insertDesc` over a list: sortedness, permutation, and
per-rate stability relative to the accumulator. -/
theorem foldl_insertDesc (l acc : List (RemediationAction × ℚ))
    (hacc : acc.Pairwise rateDesc) :
    (l.foldl (fun a x => insertDesc x a) acc).Pairwise rateDesc ∧
      List.Perm (l.foldl (fun a x => insertDesc x a) acc) (acc ++ l) ∧
      ∀ r : ℚ,
        (l.foldl (fun a x => insertDesc x a) acc).filter
            (fun y => y.2 == r) =
          acc.filter (fun y => y.2 == r) ++ l.filter (fun y => y.2 == r)
    := by
  induction l generalizing acc with
  | nil => exact ⟨hacc, by simp, by simp⟩
  | cons a t ih =>
      obtain ⟨ihs, ihp, ihf⟩ := ih (insertDesc a acc)
        (insertDesc_sorted a acc hacc)
      refine ⟨ihs, ?_, ?_⟩
      · refine ihp.trans
          (((insertDesc_perm a acc).append_right t).trans ?_)
        exact List.perm_middle.symm
      · intro r
        simp only [List.foldl_cons]
        rw [ihf r, insertDesc_filter a r acc hacc]
        by_cases ha : a.2 = r
        · have hab : (a.2 == r) = true := by simpa using ha
          simp [ha, List.filter_cons, hab]
        · have hab : (a.2 == r) = false := by simpa using ha
          simp [ha, List.filter_cons, hab]

/-- A success-stats table with two tied empirical entries for OOM_KILL,
recorded `restart_pod` first. -/
def c8KB : KBState :=
  { success_stats :=
      [((.oom_kill, .restart_pod), [true, false]),
       ((.oom_kill, .scale_memory_up), [false, true])]
    patterns := [] }

/-- C8 counterexample: two empirical entries with the same success rate
1/2 are returned in recording order (`restart_pod` before
`scale_memory_up`), although `scale_memory_up` precedes `restart_pod` in
the action enum order, so ties are not broken by enum order. -/
theorem claim_C8_counterexample :
    getRecommendedActions c8KB .oom_kill =
        [(.restart_pod, 1/2), (.scale_memory_up, 1/2)] ∧
      RemediationAction.enumIdx .scale_memory_up <
        RemediationAction.enumIdx .restart_pod := by
  constructor
  · norm_num [getRecommendedActions, mergedRecommendations,
      empiricalRecommendations, sortByRateDesc, insertDesc, c8KB]
  · decide

/-- C8 amended: `get_recommended_actions` returns a permutation of the
merged recommendation list (empirical ≥2-observation rates followed by
pattern-declared actions not already present) sorted by success rate
descending; ties keep the merge order (Python's stable sort), not the
action enum order. -/
theorem claim_C8 (kb : KBState) (k : IncidentType) :
    List.Perm (getRecommendedActions kb k) (mergedRecommendations kb k) ∧
      (getRecommendedActions kb k).Pairwise rateDesc ∧
      ∀ r : ℚ, (getRecommendedActions kb k).filter (fun y => y.2 == r) =
        (mergedRecommendations kb k).filter (fun y => y.2 == r) := by
  obtain ⟨hs, hp, hf⟩ :=
    foldl_insertDesc (mergedRecommendations kb k) [] (List.Pairwise.nil)
  refine ⟨?_, hs, ?_⟩
  · simpa using hp
  · intro r
    simpa using hf r

/-! ### C3: when the ensemble agreement boost applies -/

/-- C3 counterexample: with a feature at z-score exactly 3 the anomaly
signal is predicted with probability exactly 0.5, and with a memory
forecast of exactly 95 % the time-series signal is predicted with
probability exactly 0.5; no signal has probability > 0.5, yet the boost
is applied (the output differs from the unboosted weighted sum), so
"boost exactly when ≥ 2 signals have p > 0.5" is false. -/
theorem claim_C3_counterexample :
    (anomalyResult [3]).predicted = true ∧
      ¬((1:ℚ)/2 < (anomalyResult [3]).probability) ∧
      (tsResult (some 95) none).predicted = true ∧
      ¬((1:ℚ)/2 < (tsResult (some 95) none).probability) ∧
      ¬((1:ℚ)/2 < checkPatternsProbability) ∧
      ensembleProbability (anomalyResult [3]) (tsResult (some 95) none)
          checkPatternsProbability ≠
        weightedSum (anomalyResult [3]) (tsResult (some 95) none)
          checkPatternsProbability := by
  norm_num [anomalyResult, tsResult, checkPatternsProbability,
    ensembleProbability, weightedSum, signalsTriggered]

/-- C3 amended: the boost `p ↦ min(0.98, p·1.3)` is applied exactly when
at least 2 signals are *triggered*, where the anomaly and time-series
signals trigger through their `predicted` flags (some z-score ≥ 3,
respectively some forecast breach) regardless of their probabilities,
and only the pattern signal triggers through `probability > 0.5`. -/
theorem claim_C3 (zs : List ℚ) (mem cpu : Option ℚ) (pp : ℚ) :
    (2 ≤ signalsTriggered (anomalyResult zs) (tsResult mem cpu) pp →
      ensembleProbability (anomalyResult zs) (tsResult mem cpu) pp =
        min (98/100)
          (weightedSum (anomalyResult zs) (tsResult mem cpu) pp *
            (13/10))) ∧
    (signalsTriggered (anomalyResult zs) (tsResult mem cpu) pp < 2 →
      ensembleProbability (anomalyResult zs) (tsResult mem cpu) pp =
        weightedSum (anomalyResult zs) (tsResult mem cpu) pp) ∧
    ((anomalyResult zs).predicted = true ↔ ∃ z ∈ zs, (3:ℚ) ≤ z) ∧
    ((tsResult mem cpu).predicted = true ↔
      (∃ u, mem = some u ∧ (95:ℚ) ≤ u) ∨
        (∃ u, cpu = some u ∧ (90:ℚ) ≤ u)) := by
  refine ⟨?_, ?_, ?_, ?_⟩
  · intro h
    simp [ensembleProbability, h]
  · intro h
    simp [ensembleProbability, not_le.mpr h]
  · simp [anomalyResult, List.isEmpty_iff, List.filter_eq_nil_iff]
  · rcases mem with _ | u <;> rcases cpu with _ | v
    · simp [tsResult]
    · by_cases hv : (90:ℚ) ≤ v <;> simp [tsResult, hv]
    · by_cases hu : (95:ℚ) ≤ u <;> simp [tsResult, hu]
    · by_cases hu : (95:ℚ) ≤ u <;> by_cases hv : (90:ℚ) ≤ v <;>
        simp [tsResult, hu, hv]

/-- Witness for C3 amended: two triggered signals (z = 4 anomaly, 97 %
memory forecast) produce the boosted probability. -/
theorem claim_C3_witness :
    ensembleProbability (anomalyResult [4]) (tsResult (some 97) none) 0 =
      min (98/100)
        (weightedSum (anomalyResult [4]) (tsResult (some 97) none) 0 *
          (13/10)) :=
  (claim_C3 [4] (some 97) none 0).1
    (by norm_num [signalsTriggered, anomalyResult, tsResult])

/-! ### C4: idempotence of error-message normalization -/

/-- The scanner leaves the input unchanged wherever the matcher never
fires, for any predicate preserved by taking tails. -/
theorem substAux_id (try_ : Option Char → List Char → Option (List Char))
    (repl : List Char) (P : List Char → Prop)
    (hstep : ∀ (prev : Option Char) c rest, P (c :: rest) →
      try_ prev (c :: rest) = none)
    (htail : ∀ c rest, P (c :: rest) → P rest) :
    ∀ fuel (prev : Option Char) l, P l →
      substAux try_ repl fuel prev l = l := by
  intro fuel
  induction fuel with
  | zero => intro prev l _; rfl
  | succ n ih =>
      intro prev l hP
      cases l with
      | nil => rfl
      | cons c rest =>
          show (match try_ prev (c :: rest) with
            | some rest' =>
                repl ++ substAux try_ repl n
                  (((c :: rest).take
                    ((c :: rest).length - rest'.length)).getLast?) rest'
            | none => c :: substAux try_ repl n (some c) rest) = c :: rest
          rw [hstep prev c rest hP]
          exact congrArg (c :: ·) (ih (some c) rest (htail c rest hP))

/-- One `re.sub` pass is the identity when the matcher never fires. -/
theorem reSub_id (try_ : Option Char → List Char → Option (List Char))
    (repl : List Char) (P : List Char → Prop)
    (hstep : ∀ (prev : Option Char) c rest, P (c :: rest) →
      try_ prev (c :: rest) = none)
    (htail : ∀ c rest, P (c :: rest) → P rest)
    (l : List Char) (hP : P l) : reSub try_ repl l = l :=
  substAux_id try_ repl P hstep htail l.length none l hP

/-- Consuming a fixed class count can only succeed on a nonempty input
whose head is in the class. -/
theorem takeClassN_cons_none (p : Char → Bool) (n : Nat) (c : Char)
    (rest : List Char) (hc : p c = false) :
    takeClassN p (n + 1) (c :: rest) = none := by
  simp [takeClassN, hc]

/-- `takeClassN` only keeps characters of the input. -/
theorem takeClassN_subset (p : Char → Bool) :
    ∀ (n : Nat) (l r : List Char), takeClassN p n l = some r →
      ∀ x ∈ r, x ∈ l := by
  intro n
  induction n with
  | zero =>
      intro l r h x hx
      cases h
      exact hx
  | succ m ih =>
      intro l r h x hx
      cases l with
      | nil => cases h
      | cons c rest =>
          by_cases hc : p c = true
          · have h' : takeClassN p m rest = some r := by
              simpa [takeClassN, hc] using h
            exact List.mem_cons_of_mem c (ih rest r h' x hx)
          · rw [takeClassN_cons_none p m c rest
              (Bool.eq_false_iff.mpr hc)] at h
            cases h

/-- The timestamp pattern needs a leading digit. -/
theorem matchTS_none (c : Char) (rest : List Char)
    (hc : c.isDigit = false) : matchTS (c :: rest) = none := by
  unfold matchTS
  rw [takeClassN_cons_none Char.isDigit 3 c rest hc]
  rfl

/-- The IPv4 pattern needs a leading digit. -/
theorem matchIP_none (c : Char) (rest : List Char)
    (hc : c.isDigit = false) : matchIP (c :: rest) = none := by
  unfold matchIP ipGroupDot
  rw [List.takeWhile_cons_of_neg (by simp [hc])]
  rfl

/-- The number pattern needs a leading digit. -/
theorem matchNUM_none (prev : Option Char) (c : Char) (rest : List Char)
    (hc : c.isDigit = false) : matchNUM prev (c :: rest) = none := by
  unfold matchNUM
  split
  · rfl
  · rw [List.takeWhile_cons_of_neg (by simp [hc])]
    rfl

/-- The pod-suffix pattern needs a leading hyphen. -/
theorem matchPOD_none (c : Char) (rest : List Char) (hc : c ≠ '-') :
    matchPOD (c :: rest) = none := by
  unfold matchPOD expectChar
  simp [hc]

/-- The UUID pattern contains a literal hyphen, so it cannot match inside
a hyphen-free input. -/
theorem matchUUID_none (c : Char) (rest : List Char)
    (hnh : ∀ x ∈ c :: rest, x ≠ '-') : matchUUID (c :: rest) = none := by
  unfold matchUUID
  cases h8 : takeClassN isHexLower 8 (c :: rest) with
  | none => rfl
  | some r1 =>
      cases r1 with
      | nil => rfl
      | cons d r2 =>
          have hd : d ≠ '-' :=
            hnh d (takeClassN_subset isHexLower 8 (c :: rest) (d :: r2) h8
              d (List.mem_cons_self d r2))
          show (some (d :: r2) >>= expectChar '-' >>= _ >>= _ >>= _ >>= _
            >>= _ >>= _ >>= _) = none
          simp [expectChar, hd]

/-- `Char.ofNat` of a value below the surrogate range decodes back. -/
theorem charToNat_ofNat_valid {m : Nat} (h : m < 55296) :
    (Char.ofNat m).toNat = m := by
  unfold Char.ofNat
  rw [dif_pos (Or.inl h)]
  rfl

/-- ASCII lowercasing is idempotent. -/
theorem charToLower_idem (c : Char) : c.toLower.toLower = c.toLower := by
  unfold Char.toLower
  dsimp only
  by_cases h : c.toNat ≥ 65 ∧ c.toNat ≤ 90
  · rw [if_pos h]
    have hv : c.toNat + 32 < 55296 := by
      have := h.2
      omega
    rw [charToNat_ofNat_valid hv]
    rw [if_neg (by omega)]
  · rw [if_neg h, if_neg h]

/-- Mapping an elementwise-fixed function is the identity. -/
theorem map_toLower_of_fixed (l : List Char)
    (h : ∀ c ∈ l, c.toLower = c) : l.map Char.toLower = l := by
  induction l with
  | nil => rfl
  | cons c t ih =>
      rw [List.map_cons, h c (List.mem_cons_self c t),
        ih (fun x hx => h x (List.mem_cons_of_mem c hx))]

/-- Trimming only keeps characters of the input. -/
theorem mem_of_mem_trimChars {c : Char} {l : List Char}
    (h : c ∈ trimChars l) : c ∈ l := by
  unfold trimChars at h
  rw [List.mem_reverse] at h
  have h2 := (List.dropWhile_sublist Char.isWhitespace).subset h
  rw [List.mem_reverse] at h2
  exact (List.dropWhile_sublist Char.isWhitespace).subset h2

/-- The head surviving a `dropWhile` fails the predicate. -/
theorem dropWhile_head_false (p : Char → Bool) :
    ∀ (l : List Char) c t, l.dropWhile p = c :: t → p c = false := by
  intro l
  induction l with
  | nil => intro c t h; cases h
  | cons a s ih =>
      intro c t h
      by_cases pa : p a = true
      · rw [List.dropWhile_cons_of_pos pa] at h
        exact ih c t h
      · rw [List.dropWhile_cons_of_neg pa] at h
        cases h
        exact Bool.eq_false_iff.mpr pa

/-- `dropWhile` is idempotent. -/
theorem dropWhile_idem (p : Char → Bool) (l : List Char) :
    (l.dropWhile p).dropWhile p = l.dropWhile p := by
  cases h : l.dropWhile p with
  | nil => rfl
  | cons c t =>
      rw [List.dropWhile_cons_of_neg]
      rw [dropWhile_head_false p l c t h]
      exact Bool.false_ne_true

/-- Trimming is idempotent. -/
theorem trimChars_idem (l : List Char) :
    trimChars (trimChars l) = trimChars l := by
  unfold trimChars
  have hstep1 :
      ((((l.dropWhile Char.isWhitespace).reverse).dropWhile
        Char.isWhitespace).reverse).dropWhile Char.isWhitespace =
      (((l.dropWhile Char.isWhitespace).reverse).dropWhile
        Char.isWhitespace).reverse := by
    cases hBr : (((l.dropWhile Char.isWhitespace).reverse).dropWhile
        Char.isWhitespace).reverse with
    | nil => rfl
    | cons c t =>
        have hsuf : ((l.dropWhile Char.isWhitespace).reverse).dropWhile
            Char.isWhitespace <:+ (l.dropWhile Char.isWhitespace).reverse :=
          List.dropWhile_suffix Char.isWhitespace
        have hpre := List.reverse_prefix.mpr hsuf
        rw [List.reverse_reverse] at hpre
        rw [hBr] at hpre
        obtain ⟨u, hu⟩ := hpre
        have hc : Char.isWhitespace c = false := by
          refine dropWhile_head_false Char.isWhitespace l c (t ++ u) ?_
          rw [← hu]
          rfl
        rw [List.dropWhile_cons_of_neg]
        rw [hc]
        exact Bool.false_ne_true
  rw [hstep1, List.reverse_reverse, dropWhile_idem]

/-- C4 counterexample: normalization is not idempotent.  On
`m = "AB123"` the digits are masked from the number pattern by the
uppercase `B` on the first pass, but the lowercased output `"ab123"` is
rewritten to `"ab<num>"` by a second pass. -/
theorem claim_C4_counterexample :
    normalizeErrorMessage "AB123" = "ab123" ∧
      normalizeErrorMessage (normalizeErrorMessage "AB123") = "ab<num>" ∧
      normalizeErrorMessage (normalizeErrorMessage "AB123") ≠
        normalizeErrorMessage "AB123" := by
  refine ⟨rfl, rfl, ?_⟩
  show ("ab<num>" : String) ≠ ("ab123" : String)
  decide

/-- C4 amended: normalization is idempotent on every message whose
normalized form contains no decimal digit and no hyphen (then no
substitution pattern can fire on the second pass; lowercasing and
trimming are idempotent).  In general it is not idempotent
(counterexample `"AB123"`). -/
theorem claim_C4 (m : String)
    (h : ∀ c ∈ (normalizeErrorMessage m).data,
      c.isDigit = false ∧ c ≠ '-') :
    normalizeErrorMessage (normalizeErrorMessage m) =
      normalizeErrorMessage m := by
  have P := fun (l : List Char) => ∀ c ∈ l, c.isDigit = false ∧ c ≠ '-'
  have htail : ∀ (c : Char) rest,
      (∀ x ∈ c :: rest, x.isDigit = false ∧ x ≠ '-') →
      ∀ x ∈ rest, x.isDigit = false ∧ x ≠ '-' :=
    fun c rest hp x hx => hp x (List.mem_cons_of_mem c hx)
  set t := (normalizeErrorMessage m).data with ht
  have h1 : reSub (fun _ l => matchUUID l) "<UUID>".data t = t := by
    refine reSub_id _ _ (fun l => ∀ c ∈ l, c.isDigit = false ∧ c ≠ '-')
      ?_ htail t h
    intro prev c rest hp
    exact matchUUID_none c rest (fun x hx => (hp x hx).2)
  have h2 : reSub (fun _ l => matchTS l) "<TIMESTAMP>".data t = t := by
    refine reSub_id _ _ (fun l => ∀ c ∈ l, c.isDigit = false ∧ c ≠ '-')
      ?_ htail t h
    intro prev c rest hp
    exact matchTS_none c rest (hp c (List.mem_cons_self c rest)).1
  have h3 : reSub (fun _ l => matchIP l) "<IP>".data t = t := by
    refine reSub_id _ _ (fun l => ∀ c ∈ l, c.isDigit = false ∧ c ≠ '-')
      ?_ htail t h
    intro prev c rest hp
    exact matchIP_none c rest (hp c (List.mem_cons_self c rest)).1
  have h4 : reSub matchNUM "<NUM>".data t = t := by
    refine reSub_id _ _ (fun l => ∀ c ∈ l, c.isDigit = false ∧ c ≠ '-')
      ?_ htail t h
    intro prev c rest hp
    exact matchNUM_none prev c rest (hp c (List.mem_cons_self c rest)).1
  have h5 : reSub (fun _ l => matchPOD l) "-<POD_SUFFIX>".data t = t := by
    refine reSub_id _ _ (fun l => ∀ c ∈ l, c.isDigit = false ∧ c ≠ '-')
      ?_ htail t h
    intro prev c rest hp
    exact matchPOD_none c rest (hp c (List.mem_cons_self c rest)).2
  have hlow : t.map Char.toLower = t := by
    refine map_toLower_of_fixed t ?_
    intro c hc
    have hc' : c ∈ ((reSub (fun _ l => matchPOD l) "-<POD_SUFFIX>".data
        (reSub matchNUM "<NUM>".data
          (reSub (fun _ l => matchIP l) "<IP>".data
            (reSub (fun _ l => matchTS l) "<TIMESTAMP>".data
              (reSub (fun _ l => matchUUID l) "<UUID>".data
                m.data))))).map Char.toLower) := by
      have := mem_of_mem_trimChars (l :=
        (reSub (fun _ l => matchPOD l) "-<POD_SUFFIX>".data
          (reSub matchNUM "<NUM>".data
            (reSub (fun _ l => matchIP l) "<IP>".data
              (reSub (fun _ l => matchTS l) "<TIMESTAMP>".data
                (reSub (fun _ l => matchUUID l) "<UUID>".data
                  m.data))))).map Char.toLower) (c := c) ?_
      · exact this
      · exact hc
    obtain ⟨c', _, rfl⟩ := List.mem_map.mp hc'
    exact charToLower_idem c'
  show String.mk (trimChars ((reSub (fun _ l => matchPOD l)
      "-<POD_SUFFIX>".data (reSub matchNUM "<NUM>".data
        (reSub (fun _ l => matchIP l) "<IP>".data
          (reSub (fun _ l => matchTS l) "<TIMESTAMP>".data
            (reSub (fun _ l => matchUUID l) "<UUID>".data
              t))))).map Char.toLower)) = normalizeErrorMessage m
  rw [h1, h2, h3, h4, h5, hlow]
  have htrim : trimChars t = t := by
    show trimChars (trimChars ((reSub (fun _ l => matchPOD l)
        "-<POD_SUFFIX>".data (reSub matchNUM "<NUM>".data
          (reSub (fun _ l => matchIP l) "<IP>".data
            (reSub (fun _ l => matchTS l) "<TIMESTAMP>".data
              (reSub (fun _ l => matchUUID l) "<UUID>".data
                m.data))))).map Char.toLower)) =
      trimChars ((reSub (fun _ l => matchPOD l)
        "-<POD_SUFFIX>".data (reSub matchNUM "<NUM>".data
          (reSub (fun _ l => matchIP l) "<IP>".data
            (reSub (fun _ l => matchTS l) "<TIMESTAMP>".data
              (reSub (fun _ l => matchUUID l) "<UUID>".data
                m.data))))).map Char.toLower)
    exact trimChars_idem _
  rw [htrim]

/-- Witness for C4 amended: the message `"Pod OOMKilled at 10.0.0.7"`
normalizes to a digit- and hyphen-free string, on which normalization
is idempotent. -/
theorem claim_C4_witness :
    normalizeErrorMessage (normalizeErrorMessage "Pod OOMKilled at 10.0.0.7")
      = normalizeErrorMessage "Pod OOMKilled at 10.0.0.7" :=
  claim_C4 "Pod OOMKilled at 10.0.0.7" (by decide)

end Kratos
